import Mathlib

/-
  Verification development for the sparse rail generator of this repository
  (envs/step_utils/rail_generators_sparse_watch.py) and the malfunction
  generator (envs/malfunction_generators.py).

  Shallow-embedding conventions:
  * Grid coordinates are `Int × Int` (Python ints), row first.
  * The numpy `RandomState` is modelled as an abstract stream of natural
    draws together with a cursor; `randint n` consumes one draw and reduces
    it modulo `n`.  `RandomState(seed)` produces a stream that is a fixed
    function of the seed.  Existential statements about "some random state"
    are statements about some stream.
  * The transition grid is opaque in the source's own terms (the spec treats
    the bit-encoded transition representation as an opaque abstraction), so
    the grid is embedded as the trace of drawing operations performed on it;
    two runs produce bit-identical grids iff they produce identical traces.
  * Python `list.sort`-style `sorted(range(n), key=...)` (the class's own
    `argsort`) is stable and is embedded by a stable insertion sort.
  * Floating-point quantities inside the malfunction generator only feed
    comparisons; those comparisons are abstracted as boolean oracles, which
    over-approximates every possible floating outcome.
-/

namespace Rail

/-- A grid coordinate: (row, column), as Python integers. -/
abbrev Pt := Int × Int

/-- Manhattan distance, `Vec2dOperations.get_manhattan_distance`. -/
def manhattan (a b : Pt) : Int :=
  (a.1 - b.1).natAbs + (a.2 - b.2).natAbs

/-- Chebyshev separation of two coordinates (used to state non-overlap). -/
def cheb (a b : Pt) : Int :=
  max ((a.1 - b.1).natAbs : Int) ((a.2 - b.2).natAbs : Int)

/-- numpy `clip` on integers. -/
def clip (x lo hi : Int) : Int := max lo (min hi x)

/-- Insert index `i` into an index list sorted by `key`, keeping stability
(equal keys keep insertion order, matching Python's stable `sorted`). -/
def insertByKey (key : Nat → Int) (i : Nat) : List Nat → List Nat
  | [] => [i]
  | j :: t => if key i < key j then i :: j :: t else j :: insertByKey key i t

/-- `SparseRailGen.argsort`: indices of `xs` sorted by value, stable. -/
def argsort (xs : List Int) : List Nat :=
  (List.range xs.length).foldl (fun l i => insertByKey (fun k => xs.getD k 0) i l) []

/-- Modelled from the spec: flatland's `direction_to_point` (imported from
`flatland.core.grid.grid4_utils`, not part of this repository) returns the
grid direction (N=0, E=1, S=2, W=3) from `a` toward `b`, chosen along the
axis of larger squared displacement, the row axis winning ties. -/
def direction_to_point (a b : Pt) : Nat :=
  let dr := a.1 - b.1
  let dc := a.2 - b.2
  if dr * dr ≥ dc * dc then (if dr > 0 then 0 else 2)
  else (if dc > 0 then 3 else 1)

/-- Abstract model of `numpy.random.mtrand.RandomState`: a stream of natural
draws and a cursor. -/
structure RNG where
  stream : Nat → Nat
  pos : Nat

/-- Consume one draw. -/
def RNG.next (r : RNG) : Nat × RNG :=
  (r.stream r.pos, { r with pos := r.pos + 1 })

/-- `np_random.randint(n)`: one uniform draw in `[0, n)`. -/
def RNG.randint (r : RNG) (n : Nat) : Nat × RNG :=
  let (v, r2) := r.next
  (v % n, r2)

/-- `np_random.randint(lo, hi)`: one uniform draw in `[lo, hi)`. -/
def RNG.randintRange (r : RNG) (lo hi : Nat) : Nat × RNG :=
  let (v, r2) := r.next
  (lo + v % (hi - lo), r2)

/-- `RandomState(seed)`: the stream is some fixed function of the seed (the
Mersenne twister itself is opaque; only its determinism in the seed is
used). -/
def randomState (seed : Nat) : RNG :=
  { stream := fun i => seed + i, pos := 0 }

end Rail

namespace Malfunction

/-- `ParamMalfunctionGen.generate`, envs/malfunction_generators.py lines
48-92.  The floating-point draws `random_array` and the probability /
cumulative-distribution comparisons are abstracted: `malfunctionOccurs` is
the outcome of `random_array[1] < malfunction_prob`, and `durationHit i` is
the outcome of `cum_prob_array[i] < random_array[2] < cum_prob_array[i+1]`.
The returned value is `num_broken_steps`: 0 when the agent has no position
or no malfunction occurs; otherwise the loop starts from the minimum 2 and
the first index `i < 49` with `durationHit i` sets it to `i + 2`. -/
def paramGenerate (positionIsNone : Bool) (malfunctionOccurs : Bool)
    (durationHit : Nat → Bool) : Nat :=
  if positionIsNone then 0
  else if malfunctionOccurs then
    match (List.range 49).find? durationHit with
    | some i => i + 2
    | none => 2
  else 0

end Malfunction

namespace SparseRailGen

open Rail

/-- Row-major enumeration of all grid cells, matching the order in which
`np.where(allowed_grid == 1)` lists allowed indices. -/
def rowMajorCells (height width : Nat) : List Pt :=
  (List.range height).flatMap fun r =>
    (List.range width).map fun c => ((r : Int), (c : Int))

/-- Border part of the allowed mask: `allowed_grid[pad1:-pad1, pad1:-pad1] = 1`
(lines 261-265): a cell is in the initially allowed region iff it is at least
`city_radius + 1` away from every border. -/
def inAllowedBorder (height width pad1 : Nat) (cell : Pt) : Bool :=
  decide ((pad1 : Int) ≤ cell.1) && decide (cell.1 < (height : Int) - (pad1 : Int)) &&
  decide ((pad1 : Int) ≤ cell.2) && decide (cell.2 < (width : Int) - (pad1 : Int))

/-- The padded square zeroed out of the allowed mask around a placed city
(lines 276-283): rows `row - 2*pad1 .. row + 2*pad1` and the same columns
(the `max(0, ...)` clipping is implicit because grid cells are nonnegative). -/
def blockedBy (pad1 : Nat) (p cell : Pt) : Bool :=
  decide (p.1 - 2 * (pad1 : Int) ≤ cell.1) && decide (cell.1 ≤ p.1 + 2 * (pad1 : Int)) &&
  decide (p.2 - 2 * (pad1 : Int) ≤ cell.2) && decide (cell.2 ≤ p.2 + 2 * (pad1 : Int))

/-- Cells with `allowed_grid == 1` after the cities in `placed` have been
placed, in row-major (`np.where`) order. -/
def allowedCells (height width pad1 : Nat) (placed : List Pt) : List Pt :=
  (rowMajorCells height width).filter fun cell =>
    inAllowedBorder height width pad1 cell &&
      placed.all fun p => !(blockedBy pad1 p cell)

/-- The `for _ in range(num_cities)` sampling loop of
`_generate_random_city_positions` (lines 266-285): draw a uniform index into
the currently allowed cells, append that cell, block its padded square, and
stop early when no allowed cell remains. -/
def randomCityPositionsAux (cityRadius height width : Nat) :
    Nat → List Pt → RNG → List Pt × RNG
  | 0, acc, rng => (acc, rng)
  | n + 1, acc, rng =>
    let allowed := allowedCells height width (cityRadius + 1) acc
    if allowed.length = 0 then (acc, rng)
    else
      let idx := (rng.randint allowed.length).1
      let cell := allowed.getD idx ((0 : Int), (0 : Int))
      randomCityPositionsAux cityRadius height width n (acc ++ [cell])
        (rng.randint allowed.length).2

/-- `SparseRailGen._generate_random_city_positions` (lines 233-291).  Returns
the positions, the advanced random state, and the warning raised when fewer
cities than requested could be placed. -/
def generate_random_city_positions (num_cities city_radius width height : Nat)
    (np_random : RNG) : List Pt × RNG × List String :=
  let r := randomCityPositionsAux city_radius height width num_cities [] np_random
  let warns :=
    if r.1.length < num_cities then ["Could not set all required cities"] else []
  (r.1, r.2, warns)

/-- Exact ceiling of `sqrt(num * height / width)`, embedding
`int(np.ceil(np.sqrt(num_cities * aspect_ratio)))` with the float
computation idealised to exact rational arithmetic: the least `k` with
`num * height ≤ k * k * width`. -/
def ceilSqrtRatio (num height width : Nat) : Nat :=
  match (List.range (num * height + 1)).find? (fun k => num * height ≤ k * k * width) with
  | some k => k
  | none => num * height

/-- `np.linspace(start, stop, num, dtype=int)` for `start ≤ stop`, idealised
to exact rational arithmetic followed by the integer floor. -/
def linspaceNat (start stop num : Nat) : List Nat :=
  if num ≤ 1 then (List.range num).map fun _ => start
  else (List.range num).map fun i => start + i * (stop - start) / (num - 1)

/-- `SparseRailGen._generate_evenly_distr_city_positions` (lines 293-337). -/
def generate_evenly_distr_city_positions (num_cities city_radius width height : Nat) :
    List Pt :=
  let padding := 2
  let city_size := 2 * (city_radius + 1)
  let max_cities_per_row := (height - padding) / city_size
  let max_cities_per_col := (width - padding) / city_size
  let cities_per_row := min (ceilSqrtRatio num_cities height width) max_cities_per_row
  let cities_per_col :=
    min ((num_cities + cities_per_row - 1) / cities_per_row) max_cities_per_col
  let num_build_cities := min num_cities (cities_per_col * cities_per_row)
  let row_positions := linspaceNat (city_radius + 2) (height - (city_radius + 2)) cities_per_row
  let col_positions := linspaceNat (city_radius + 2) (width - (city_radius + 2)) cities_per_col
  (List.range num_build_cities).map fun city_idx =>
    ((row_positions.getD (city_idx % cities_per_row) 0 : Int),
     (col_positions.getD (city_idx / cities_per_row) 0 : Int))

/-- Deduplication preserving first occurrences, `list(dict.fromkeys(...))`. -/
def orderedDedup (l : List Nat) : List Nat :=
  l.foldl (fun acc x => if acc.contains x then acc else acc ++ [x]) []

/-- `SparseRailGen.build_clique3` (lines 196-201): the sorted triple of the
three nearest indices (out-of-range accesses default to 0; the Python code
would raise there, which no claim exercises). -/
def build_clique3 (index_array : List (List Nat)) (index : Nat) : List Nat :=
  let row := index_array.getD index []
  let c1 := row.getD 0 0
  let c2 := row.getD 1 0
  let c3 := row.getD 2 0
  [min c1 (min c2 c3), c1 + c2 + c3 - min c1 (min c2 c3) - max c1 (max c2 c3),
   max c1 (max c2 c3)]

/-- `SparseRailGen.contains_cliques` (lines 203-231).  `np.argsort` of each
distance row is embedded by the stable index sort `argsort` (numpy leaves the
order of equal distances unspecified; the concrete inputs used below are
evaluated only where this cannot matter). -/
def contains_cliques (city_positions : List Pt) : Bool :=
  let n := city_positions.length
  let sort_index : List (List Nat) :=
    (List.range n).map fun i =>
      argsort (city_positions.map (manhattan (city_positions.getD i ((0 : Int), (0 : Int)))))
  (List.range n).any fun i =>
    let clique3 := build_clique3 sort_index i
    let clique31 := build_clique3 sort_index (clique3.getD 1 0)
    let clique32 := build_clique3 sort_index (clique3.getD 2 0)
    if clique3 = clique31 ∧ clique3 = clique32 then true
    else
      let cluster := orderedDedup (clique3 ++ clique31 ++ clique32)
      if cluster.length = 4 then
        let additional := (cluster.filter fun x => !(clique3.contains x)).getD 0 0
        let clique33 := build_clique3 sort_index additional
        decide (cluster = orderedDedup (cluster ++ clique33))
      else false

/-- Result of the clique-rejection retry loop. -/
structure CliqueLoopResult where
  result : Option (List Pt)
  rng : RNG
  attempts : Nat
  warnings : List String

/-- The `while contains_cliques:` loop of `generate` (lines 156-160),
modelled with explicit fuel: while the current positions contain cliques the
placement is redone with fresh random draws.  `attempts` counts the number
of placements redone; `result` is `none` when the fuel is exhausted with the
predicate still positive (the Python loop would still be running). -/
def cliqueLoop (num_cities city_radius width height : Nat) :
    Nat → List Pt → RNG → CliqueLoopResult
  | 0, ps, rng =>
    if contains_cliques ps then ⟨none, rng, 0, []⟩ else ⟨some ps, rng, 0, []⟩
  | fuel + 1, ps, rng =>
    if contains_cliques ps then
      let g := generate_random_city_positions num_cities city_radius width height rng
      let r := cliqueLoop num_cities city_radius width height fuel g.1 g.2.1
      ⟨r.result, r.rng, r.attempts + 1, g.2.2 ++ r.warnings⟩
    else ⟨some ps, rng, 0, []⟩

/-- `offset_distances[i]` (line 420): `np.arange(n)[i] - int(n / 2)`. -/
def offset_distance (n i : Nat) : Int := (i : Int) - ((n / 2 : Nat) : Int)

/-- `inner_point_offset[i]` (line 423):
`np.abs(offset_distances) + np.clip(offset_distances, 0, 1) + 1`. -/
def inner_point_offset (n i : Nat) : Int :=
  |offset_distance n i| + Rail.clip (offset_distance n i) 0 1 + 1

/-- `connection_slots[i]` (line 418): `np.arange(n)[i] - start_idx`. -/
def connection_slot (start_idx i : Nat) : Int := (i : Int) - (start_idx : Int)

/-- Inner connection coordinate for direction `d` and slot `i`
(lines 425-448). -/
def innerCoord (c : Pt) (r n start_idx : Nat) (d i : Nat) : Pt :=
  if d = 0 then (c.1 - r + inner_point_offset n i, c.2 + connection_slot start_idx i)
  else if d = 1 then (c.1 + connection_slot start_idx i, c.2 + r - inner_point_offset n i)
  else if d = 2 then (c.1 + r - inner_point_offset n i, c.2 + connection_slot start_idx i)
  else (c.1 + connection_slot start_idx i, c.2 - r + inner_point_offset n i)

/-- Outer connection coordinate for direction `d` and slot `i`
(lines 429-448). -/
def outerCoord (c : Pt) (r start_idx : Nat) (d i : Nat) : Pt :=
  if d = 0 then (c.1 - r, c.2 + connection_slot start_idx i)
  else if d = 1 then (c.1 + connection_slot start_idx i, c.2 + r)
  else if d = 2 then (c.1 + r, c.2 + connection_slot start_idx i)
  else (c.1 + connection_slot start_idx i, c.2 - r)

/-- `SparseRailGen._get_cells_in_city` (lines 937-972): the full
`(2r+1) × (2r+1)` square around the center, row-major (the vector-field
population via the external `align_cell_to_city` only feeds the opaque
transition-fix hints and is not part of the returned cells). -/
def get_cells_in_city (center : Pt) (radius : Nat) : List Pt :=
  (List.range (2 * radius + 1)).flatMap fun i =>
    (List.range (2 * radius + 1)).map fun j =>
      (center.1 - radius + i, center.2 - radius + j)

/-- Connection-point data computed for a single city by the body of the
`for city_position in city_positions` loop of
`_generate_city_connection_points` (lines 384-454). -/
structure CityConnPoints where
  inner : List (List Pt)
  outer : List (List Pt)
  orientation : Nat
  cells : List Pt
  deriving DecidableEq

/-- `connections_per_direction` (lines 404-410): the number of connection
points of side `d`, which is `nr` on the orientation side `dirv` and its
opposite and 0 elsewhere. -/
def connectionsPerDirection (dirv nr d : Nat) : Nat :=
  if [dirv, (dirv + 2) % 4].contains d then nr else 0

/-- The four per-side inner connection point lists (lines 411-453), with
`number_of_out_rails = 2` fixed at line 415, so `start_idx = (nr - 2) / 2`. -/
def cityInnerLists (city : Pt) (city_radius dirv nr : Nat) : List (List Pt) :=
  (List.range 4).map fun d =>
    (List.range (connectionsPerDirection dirv nr d)).map fun i =>
      innerCoord city city_radius nr ((nr - 2) / 2) d i

/-- The four per-side outer connection point lists (lines 450-451): only the
slots in `range(start_idx, start_idx + number_of_out_rails)` project an
outer point. -/
def cityOuterLists (city : Pt) (city_radius dirv nr : Nat) : List (List Pt) :=
  (List.range 4).map fun d =>
    ((List.range (connectionsPerDirection dirv nr d)).filter fun i =>
        decide ((nr - 2) / 2 ≤ i ∧ i < (nr - 2) / 2 + 2)).map fun i =>
      outerCoord city city_radius ((nr - 2) / 2) d i

/-- One iteration of the city loop of `_generate_city_connection_points`:
orientation toward the closest neighbour (random in grid mode), an even
number `nr = randint(1, rail_pairs_in_city + 1) * 2` of connection points on
the orientation side and its opposite, the two middle slots also receiving
outer points. -/
def cityConnectionPoints (positions : List Pt) (city : Pt) (city_radius : Nat)
    (rail_pairs_in_city : Nat) (grid_mode : Bool) (rng : RNG) : CityConnPoints × RNG :=
  let neighb_dist := positions.map (manhattan city)
  let closest_neighb_idx := argsort neighb_dist
  let (dirv, rng1) :=
    if grid_mode then rng.randint 4
    else (direction_to_point city
            (positions.getD (closest_neighb_idx.getD 1 0) ((0 : Int), (0 : Int))), rng)
  let city_cells := get_cells_in_city city city_radius
  let (draw, rng2) := rng1.randintRange 1 (rail_pairs_in_city + 1)
  let nr_of_connection_points := draw * 2
  (⟨cityInnerLists city city_radius dirv nr_of_connection_points,
    cityOuterLists city city_radius dirv nr_of_connection_points,
    dirv, city_cells⟩, rng2)

/-- Recursion over the city list, threading the random state. -/
def gccpAux (positions : List Pt) (city_radius rail_pairs : Nat) (grid_mode : Bool) :
    List Pt → RNG → List CityConnPoints × RNG
  | [], rng => ([], rng)
  | c :: rest, rng =>
    let pc := cityConnectionPoints positions c city_radius rail_pairs grid_mode rng
    let l := gccpAux positions city_radius rail_pairs grid_mode rest pc.2
    (pc.1 :: l.1, l.2)

/-- Aggregated result of `_generate_city_connection_points`. -/
structure ConnPointsResult where
  inner : List (List (List Pt))
  outer : List (List (List Pt))
  orientations : List Nat
  city_cells : List Pt

/-- `SparseRailGen._generate_city_connection_points` (lines 339-455).  The
`rails_between_cities` argument is received but unused by the current code
(the out-rail count is fixed to 2 at line 415). -/
def generate_city_connection_points (positions : List Pt) (city_radius : Nat)
    (rails_between_cities rail_pairs_in_city : Nat) (grid_mode : Bool) (rng : RNG) :
    ConnPointsResult × RNG :=
  let l := gccpAux positions city_radius rail_pairs_in_city grid_mode positions rng
  (⟨l.1.map (fun x => x.inner), l.1.map (fun x => x.outer),
    l.1.map (fun x => x.orientation), (l.1.map (fun x => x.cells)).flatten⟩, l.2)

/-- A routing primitive over an abstract grid type `G`: the external
`connect_rail_in_grid_map` (flatland library, outside this repository) viewed
as a function from the grid and the two endpoints to the produced cell list
and the mutated grid.  The fixed flags and the forbidden city cells of the
call sites are part of the concrete router instance. -/
def Router (G : Type) := G → Pt → Pt → List Pt × G

/-- Record of one routing call made by `_connect_cities`. -/
structure CallRec where
  src : Pt
  tgt : Pt
  line : List Pt
  deriving DecidableEq

/-- A call is a local routing failure exactly when `_connect_cities` warns
about it (lines 558-562): the produced line is empty, or its last cell is
not the requested target, or its first cell is not the requested source. -/
def CallRec.failed (c : CallRec) : Bool :=
  decide (c.line.length = 0) ||
  !(decide (c.line.getLast? = some c.tgt) && decide (c.line.head? = some c.src))

/-- The router-facing state of `_connect_cities`: grid, warnings, the
accumulated `all_paths`, and the log of routing calls. -/
structure DataState (G : Type) where
  grid : G
  warnings : List String
  all_paths : List Pt
  calls : List CallRec

/-- The control state of `_connect_cities`: the function-local Python
variables that persist across loop iterations (and across the two per-city
passes, and across cities).  Fields that Python leaves unbound until first
assignment start at default values; the code never reads them before
assignment on the executions the claims are about. -/
structure CtrlState where
  i : Nat
  city_direction : Nat
  neighbour_connection_point : Pt
  next_neighbour_connection_point : Pt
  last_city_out_connection_point : Pt
  neighbour_index_for_connection : Nat
  possible_connection : Nat × Nat
  current_direction : Nat
  connection_points_copy : List (List (List Pt))
  set_of_connections : List (Nat × Nat)
  deriving DecidableEq

/-- Initial control state (start of `_connect_cities`). -/
def initCtrl : CtrlState :=
  ⟨0, 0, ((0 : Int), (0 : Int)), ((0 : Int), (0 : Int)), ((0 : Int), (0 : Int)), 0,
   (0, 0), 0, [], []⟩

/-- One routing call with the warning bookkeeping of lines 551-563: warn
when the line is empty, otherwise warn when an endpoint mismatches, and in
all cases extend `all_paths` with the line. -/
def drawCall {G : Type} (router : Router G) (d : DataState G) (src tgt : Pt) :
    DataState G :=
  let res := router d.grid src tgt
  let new_line := res.1
  let warns :=
    if new_line.length = 0 then d.warnings ++ ["No line added between stations"]
    else if ¬(new_line.getLast? = some tgt ∧ new_line.head? = some src) then
      d.warnings ++ ["Unable to connect requested stations"]
    else d.warnings
  ⟨res.2, warns, d.all_paths ++ new_line, d.calls ++ [⟨src, tgt, new_line⟩]⟩

/-- The strict-minimum search of lines 508-519: scan the neighbour's
connection points in direction order N,E,S,W and keep the first point of
strictly smallest Manhattan distance to `p`; returns the point and its
direction (or `none` when the neighbour has no points at all). -/
def argminConnectionPoint (p : Pt) (lists : List (List Pt)) : Option (Pt × Nat) :=
  ((List.range 4).flatMap fun d => (lists.getD d []).map fun q => (q, d)).foldl
    (fun best qd =>
      match best with
      | none => some qd
      | some b => if manhattan p qd.1 < manhattan p b.1 then some qd else best)
    none

/-- Replace entry `b` of entry `a` of a nested connection-point list. -/
def setNested (cps : List (List (List Pt))) (a b : Nat) (v : List Pt) :
    List (List (List Pt)) :=
  cps.set a ((cps.getD a []).set b v)

/-- The even-index branch of the per-point loop (lines 507-538): find the
closest unclaimed neighbour point, orient the pair selection, claim one
point, and remember this city-out point; when the reversed city pair is
already connected, only skip by incrementing `i`. -/
def evenStep (positions : List Pt) (idx nbr : Nat) (city : Pt) (p : Pt)
    (c : CtrlState) : CtrlState :=
  let c1 :=
    match argminConnectionPoint p (c.connection_points_copy.getD nbr []) with
    | some qd =>
      { c with neighbour_connection_point := qd.1, current_direction := qd.2,
               neighbour_index_for_connection := nbr }
    | none => c
  let city_direction := direction_to_point city p
  let neighbour_direction :=
    direction_to_point (positions.getD nbr ((0 : Int), (0 : Int)))
      c1.neighbour_connection_point
  let c2 := { c1 with
    possible_connection := (idx, c1.neighbour_index_for_connection),
    city_direction := city_direction }
  if !(c2.set_of_connections.contains (c1.neighbour_index_for_connection, idx)) then
    let side := (c2.connection_points_copy.getD nbr []).getD c2.current_direction []
    let sel :=
      if city_direction + neighbour_direction = 1 ∨
         city_direction + neighbour_direction = 5 ∨
         city_direction = neighbour_direction then
        (side.getD 1 ((0 : Int), (0 : Int)), side.getD 0 ((0 : Int), (0 : Int)))
      else (side.getD 0 ((0 : Int), (0 : Int)), side.getD 1 ((0 : Int), (0 : Int)))
    { c2 with
      neighbour_connection_point := sel.1,
      next_neighbour_connection_point := sel.2,
      connection_points_copy :=
        setNested c2.connection_points_copy nbr c2.current_direction (side.erase sel.1),
      last_city_out_connection_point := p }
  else { c2 with i := c2.i + 1 }

/-- The non-crossing test of lines 540-549 with Python's `and`/`or`
precedence made explicit. -/
def crossingCond (c : CtrlState) : Bool :=
  let ncp := c.neighbour_connection_point
  let lcp := c.last_city_out_connection_point
  decide (((c.city_direction = 0 ∨ c.city_direction = 1) ∧
      ((ncp.1 < lcp.1 ∧ ncp.2 > lcp.2) ∨ (ncp.1 > lcp.1 ∧ ncp.2 < lcp.2))) ∨
    ((c.city_direction = 2 ∨ c.city_direction = 3) ∧
      ((ncp.1 < lcp.1 ∧ ncp.2 < lcp.2) ∨ (ncp.1 > lcp.1 ∧ ncp.2 > lcp.2))))

/-- The routing performed by the odd-index branch (lines 539-602): two
routing calls whose order depends on the non-crossing test; failures only
warn, control flow is unaffected by the routing results. -/
def oddStepData {G : Type} (router : Router G) (p : Pt) (c : CtrlState)
    (d : DataState G) : DataState G :=
  if crossingCond c then
    drawCall router
      (drawCall router d p c.next_neighbour_connection_point)
      c.last_city_out_connection_point c.neighbour_connection_point
  else
    drawCall router
      (drawCall router d c.last_city_out_connection_point c.neighbour_connection_point)
      p c.next_neighbour_connection_point

/-- Control-state part of one iteration of the per-point loop: the even
branch is `evenStep`; the odd branch appends `possible_connection` to
`set_of_connections` (done in both arms of the odd branch); afterwards the
trailing `i += 1` of lines 603/709. -/
def pointStepCtrl (positions : List Pt) (idx nbr : Nat) (city : Pt) (p : Pt)
    (c : CtrlState) : CtrlState :=
  let c2 :=
    if c.i % 2 = 0 then evenStep positions idx nbr city p c
    else { c with
      set_of_connections := c.set_of_connections ++ [c.possible_connection] }
  { c2 with i := c2.i + 1 }

/-- Data-state part of one iteration of the per-point loop: the even branch
performs no routing; the odd branch performs the two routing calls. -/
def pointStepData {G : Type} (router : Router G) (p : Pt) (c : CtrlState)
    (d : DataState G) : DataState G :=
  if c.i % 2 = 0 then d else oddStepData router p c d

/-- One pass over the outer connection points of one side of one city
(the `for city_out_connection_point in ...` loops at lines 506 and 607). -/
def connectPass {G : Type} (router : Router G) (positions : List Pt) (idx nbr : Nat)
    (city : Pt) (pts : List Pt) (st : CtrlState × DataState G) :
    CtrlState × DataState G :=
  pts.foldl
    (fun st p => (pointStepCtrl positions idx nbr city p st.1,
                  pointStepData router p st.1 st.2))
    st

/-- The two closest neighbour indices of a city (lines 491-494): positions
of ranks 1 and 2 in the stable argsort of the Manhattan distances.  The
second component defaults to 0 where Python's `closest_neighb_idx[2]` would
raise IndexError (fewer than 3 cities); that reachable exception is not
collapsed silently: `generate` models it explicitly through
`connect_cities_header_raises` below and never consults this default on an
execution the program completes. -/
def cityNeighbours (positions : List Pt) (current_city_idx : Nat) : Nat × Nat :=
  let closest_neighb_idx := argsort (positions.map
    (manhattan (positions.getD current_city_idx ((0 : Int), (0 : Int)))))
  (closest_neighb_idx.getD 1 0, closest_neighb_idx.getD 2 0)

/-- The direction computed at line 495 before any emptiness check: toward
the closest other city (rank 1 of the stable argsort). -/
def cityClosestDirection (positions : List Pt) (current_city_idx : Nat) : Nat :=
  direction_to_point (positions.getD current_city_idx ((0 : Int), (0 : Int)))
    (positions.getD ((argsort (positions.map
        (manhattan (positions.getD current_city_idx ((0 : Int), (0 : Int)))))).getD 1 0)
      ((0 : Int), (0 : Int)))

/-- The two out directions of a city (lines 495-502): toward the closest
neighbour, rotated by one when that side has no connection points; the
second direction is toward the second-closest neighbour, replaced by the
opposite side when its own side is empty. -/
def cityOutDirections (positions : List Pt)
    (connection_points : List (List (List Pt))) (current_city_idx : Nat) : Nat × Nat :=
  let city := positions.getD current_city_idx ((0 : Int), (0 : Int))
  let ns := cityNeighbours positions current_city_idx
  let cd0 := direction_to_point city (positions.getD ns.1 ((0 : Int), (0 : Int)))
  if ((connection_points.getD current_city_idx []).getD cd0 []).isEmpty then
    ((cd0 + 1) % 4, ((cd0 + 1) % 4 + 2) % 4)
  else
    let sd0 := direction_to_point city (positions.getD ns.2 ((0 : Int), (0 : Int)))
    (cd0,
      if ((connection_points.getD current_city_idx []).getD sd0 []).isEmpty then
        (cd0 + 2) % 4
      else sd0)

/-- Whether `_connect_cities` raises an uncaught IndexError while indexing
`closest_neighb_idx`, which has one entry per city.  Per city: line 495
accesses index 1 (raises when fewer than 2 cities exist); when the closest
side has connection points, line 500 accesses index 2 (raises when fewer
than 3 cities exist); when the closest side is empty, the second pass
accesses index 2 at lines 611-636 as soon as it processes a point of the
second out direction (outer sides carry 0 or 2 points, never 1, so a
non-empty second side reaches the even branch and raises when fewer than 3
cities exist).  `generate` signals this as an error instead of returning. -/
def connect_cities_header_raises (positions : List Pt)
    (connection_points : List (List (List Pt))) : Bool :=
  (List.range positions.length).any fun idx =>
    decide (positions.length < 2) ||
    (decide (positions.length < 3) &&
      (!((connection_points.getD idx []).getD (cityClosestDirection positions idx) []).isEmpty ||
       !((connection_points.getD idx []).getD
          (cityOutDirections positions connection_points idx).2 []).isEmpty))

/-- The body of the per-city loop of `_connect_cities` (lines 488-709):
choose the out directions from the two closest neighbours, reset `i` and the
working copy, run the first pass toward the closest neighbour, and when the
two directions differ reset the working copy and run the second pass toward
the second-closest neighbour (`i` is not reset between the passes). -/
def cityStep {G : Type} (router : Router G) (positions : List Pt)
    (connection_points : List (List (List Pt))) (st : CtrlState × DataState G)
    (current_city_idx : Nat) : CtrlState × DataState G :=
  let city := positions.getD current_city_idx ((0 : Int), (0 : Int))
  let ns := cityNeighbours positions current_city_idx
  let dirs := cityOutDirections positions connection_points current_city_idx
  let st2 := connectPass router positions current_city_idx ns.1 city
    ((connection_points.getD current_city_idx []).getD dirs.1 [])
    ({ st.1 with i := 0, connection_points_copy := connection_points }, st.2)
  if dirs.1 ≠ dirs.2 then
    connectPass router positions current_city_idx ns.2 city
      ((connection_points.getD current_city_idx []).getD dirs.2 [])
      ({ st2.1 with connection_points_copy := connection_points }, st2.2)
  else st2

/-- `SparseRailGen._connect_cities` (lines 457-710), parameterised by the
routing primitive.  Returns the final control state together with the grid,
warnings, `all_paths` and the routing-call log. -/
def connect_cities {G : Type} (router : Router G) (positions : List Pt)
    (connection_points : List (List (List Pt))) (grid : G) :
    CtrlState × DataState G :=
  (List.range positions.length).foldl
    (cityStep router positions connection_points)
    (initCtrl, ⟨grid, [], [], []⟩)

/-- The sequence of routing requests (source, target) made so far. -/
def reqs {G : Type} (d : DataState G) : List (Pt × Pt) :=
  d.calls.map fun c => (c.src, c.tgt)

/-- All cells of an inclusive integer interval, walked from `a` to `b`. -/
def intRangeIncl (a b : Int) : List Int :=
  if a ≤ b then (List.range ((b - a).toNat + 1)).map fun k => a + k
  else (List.range ((a - b).toNat + 1)).map fun k => a - k

/-- Modelled from the spec: the external `connect_rail_in_grid_map`
(flatland library, absent from this repository) is an "obstacle-avoiding
straight/elbow connector"; the concrete instance used by `generate` draws
the vertical leg then the horizontal leg and records the drawn cells on the
trace grid.  Obstacle avoidance only perturbs the cells in between, which
the claims treat as opaque. -/
def elbowPath (a b : Pt) : List Pt :=
  ((intRangeIncl a.1 b.1).map fun r => (r, a.2)) ++
    (((intRangeIncl a.2 b.2).map fun cc => (b.1, cc)).drop 1)

/-- One grid-mutating operation; the transition grid is embedded as the
trace of these operations. -/
inductive DrawOp where
  | rail (cells : List Pt)
  | straight (cells : List Pt)
  | fixInner (p : Pt)
  deriving DecidableEq

/-- The concrete router instance `generate` uses: draw the elbow path and
record it (the `forbidden_cells` argument of the call sites selects the
opaque avoidance behaviour and does not change the recorded endpoints). -/
def specRouter (forbidden_cells : List Pt) : Router (List DrawOp) := fun g a b =>
  let cells := elbowPath a b
  (cells, g ++ [DrawOp.rail cells])

/-- Modelled from the spec: the external `connect_straight_line_in_grid_map`
draws a straight track between two aligned points and returns the ordered
cell list. -/
def connect_straight_line (a b : Pt) : List Pt :=
  if a.1 = b.1 then (intRangeIncl a.2 b.2).map fun cc => (a.1, cc)
  else if a.2 = b.2 then (intRangeIncl a.1 b.1).map fun r => (r, a.2)
  else []

/-- `SparseRailGen._build_inner_cities` (lines 749-817): per city, find the
first side with inner points, draw the parallel straight tracks to the
opposite side, fix the inner endpoints, and extend the middle
`number_of_out_rails` tracks to their outer points.  Returns the free rails
and the grid trace. -/
def build_inner_cities (positions : List Pt) (inner outer : List (List (List Pt)))
    (grid : List DrawOp) : List (List (List Pt)) × List DrawOp :=
  (List.range positions.length).foldl
    (fun acc current_city =>
      let ic := inner.getD current_city []
      let boarder :=
        match (List.range 4).find? (fun k => !(ic.getD k []).isEmpty) with
        | some b => b
        | none => 0
      let opposite_boarder := (boarder + 2) % 4
      let nr := (ic.getD boarder []).length
      let nout := ((outer.getD current_city []).getD boarder []).length
      let start_idx := (nr - nout) / 2
      let tracks := (List.range nr).foldl
        (fun tg track_id =>
          let source := (ic.getD boarder []).getD track_id ((0 : Int), (0 : Int))
          let target := (ic.getD opposite_boarder []).getD track_id ((0 : Int), (0 : Int))
          let current_track := connect_straight_line source target
          (tg.1 ++ [current_track], tg.2 ++ [DrawOp.straight current_track]))
        (([] : List (List Pt)), acc.2)
      let g2 := (List.range nr).foldl
        (fun g track_id =>
          let source := (ic.getD boarder []).getD track_id ((0 : Int), (0 : Int))
          let target := (ic.getD opposite_boarder []).getD track_id ((0 : Int), (0 : Int))
          let g := g ++ [DrawOp.fixInner source, DrawOp.fixInner target]
          if start_idx ≤ track_id ∧ track_id < start_idx + nout then
            let source_outer :=
              ((outer.getD current_city []).getD boarder []).getD (track_id - start_idx)
                ((0 : Int), (0 : Int))
            let target_outer :=
              ((outer.getD current_city []).getD opposite_boarder []).getD
                (track_id - start_idx) ((0 : Int), (0 : Int))
            g ++ [DrawOp.straight (connect_straight_line source source_outer),
                  DrawOp.straight (connect_straight_line target target_outer)]
          else g)
        tracks.2
      (acc.1 ++ [tracks.1], g2))
    (([] : List (List (List Pt))), grid)

/-- `SparseRailGen._set_trainstation_positions` (lines 819-846): one station
per free-rail track, at the cell of index `len(track) // 2`, paired with the
track number (`city_radius` is received but unused, as in the source). -/
def set_trainstation_positions (city_positions : List Pt) (city_radius : Nat)
    (free_rails : List (List (List Pt))) : List (List (Pt × Nat)) :=
  (List.range city_positions.length).map fun current_city =>
    (List.range ((free_rails.getD current_city []).length)).map fun track_nbr =>
      let track := (free_rails.getD current_city []).getD track_nbr []
      (track.getD (track.length / 2) ((0 : Int), (0 : Int)), track_nbr)

/-- Constructor state of `SparseRailGen` (lines 60-87), with the
constructor's default arguments. -/
structure GenParams where
  max_num_cities : Nat := 2
  grid_mode : Bool := false
  max_rails_between_cities : Nat := 2
  max_rail_pairs_in_city : Nat := 2
  seed : Option Nat := none
  deriving DecidableEq

/-- `rail_pairs_in_city` (line 125): clamp to the minimum of 1 pair. -/
def railPairsInCity (p : GenParams) : Nat :=
  if p.max_rail_pairs_in_city < 1 then 1 else p.max_rail_pairs_in_city

/-- `rails_between_cities` (line 126). -/
def railsBetweenCities (p : GenParams) : Nat :=
  if railPairsInCity p * 2 < p.max_rails_between_cities then railPairsInCity p * 2
  else p.max_rails_between_cities

/-- `city_radius` (line 133): `int(np.ceil((pairs*2)/2)) + 2`, the ceiling
of an exact division, embedded as the exact Nat ceiling division. -/
def cityRadius (p : GenParams) : Nat := (railPairsInCity p * 2 + 1) / 2 + 2

/-- `max_feasible_cities` (lines 138-139), with Python floor division on
possibly negative `height - 2` / `width - 2` embedded by `Int.fdiv`. -/
def maxFeasibleCities (p : GenParams) (width height : Nat) : Int :=
  min (p.max_num_cities : Int)
    (Int.fdiv ((height : Int) - 2) (2 * ((cityRadius p : Int) + 1)) *
      Int.fdiv ((width : Int) - 2) (2 * ((cityRadius p : Int) + 1)))

/-- Errors `generate` can signal in the model: the `ValueError` of line 143,
exhaustion of the fuel bounding the clique-rejection `while` loop (in which
case the Python code is still looping), and the uncaught `IndexError` the
program raises inside `_connect_cities` when the final city list has fewer
than 3 entries (line 500 and the second-pass accesses, see
`connect_cities_header_raises`). -/
inductive GenError where
  | infeasible (msg : String)
  | placementFuel
  | indexError
  deriving DecidableEq

/-- Selection of the random state (lines 115-118): a fixed integer seed
overrides everything, otherwise a supplied `np_random` is used, otherwise a
fresh state is seeded from ambient randomness. -/
def initialRng (seed : Option Nat) (np_random : Option RNG) (ambient_seed : Nat) : RNG :=
  match seed with
  | some s => randomState s
  | none =>
    match np_random with
    | some r => r
    | none => randomState ambient_seed

/-- The output contract of `generate`: the metadata bundle of the
`agents_hints` dictionary plus the grid construction trace (the transition
grid is a deterministic function of this trace) and the accumulated
warnings. -/
structure GenOutput where
  city_positions : List Pt
  train_stations : List (List (Pt × Nat))
  city_orientations : List Nat
  grid_trace : List DrawOp
  fix_input_cells : List Pt
  warnings : List String
  deriving DecidableEq

/-- City placement stage of `generate` (lines 145-160): evenly distributed
in grid mode; random placement otherwise, guarded by the clique-rejection
`while` loop whenever more than 4 cities were requested. -/
def placeCities (p : GenParams) (fuel width height : Nat) (rng : RNG) :
    Except GenError (List Pt × RNG × List String) :=
  let n := (maxFeasibleCities p width height).toNat
  if p.grid_mode then
    .ok (generate_evenly_distr_city_positions n (cityRadius p) width height, rng, [])
  else
    let r0 := generate_random_city_positions n (cityRadius p) width height rng
    if 4 < p.max_num_cities then
      let r := cliqueLoop n (cityRadius p) width height fuel r0.1 r0.2.1
      match r.result with
      | some qs => .ok (qs, r.rng, r0.2.2 ++ r.warnings)
      | none => .error .placementFuel
    else .ok (r0.1, r0.2.1, r0.2.2)

/-- The pipeline of `generate` from the connection points onward (lines
169-194), applied to the final city positions, the advanced random state and
the accumulated placement warnings: connection points, inter-city
connection, inner cities, stations, and the input to the transition-fix
pass. -/
def assembleOutput (p : GenParams) (width height : Nat) (city_positions : List Pt)
    (rng : RNG) (warns : List String) : GenOutput :=
  let cp := (generate_city_connection_points city_positions (cityRadius p)
      (railsBetweenCities p) (railPairsInCity p) p.grid_mode rng).1
  let conn := (connect_cities (specRouter cp.city_cells) city_positions cp.outer
      ([] : List DrawOp)).2
  let built := build_inner_cities city_positions cp.inner cp.outer conn.grid
  { city_positions := city_positions,
    train_stations := set_trainstation_positions city_positions (cityRadius p) built.1,
    city_orientations := cp.orientations,
    grid_trace := built.2,
    fix_input_cells := cp.city_cells ++ conn.all_paths,
    warnings := warns ++ conn.warnings }

/-- The assembly pipeline guarded by the IndexError the program raises
inside `_connect_cities` when fewer than 3 cities reach it: in that case the
Python call stack unwinds with the exception (some cells may already have
been drawn on the method-local grid, but no map or metadata is ever
returned), modelled as the `indexError` outcome. -/
def assembleChecked (p : GenParams) (width height : Nat) (city_positions : List Pt)
    (rng : RNG) (warns : List String) : Except GenError GenOutput :=
  let cp := (generate_city_connection_points city_positions (cityRadius p)
      (railsBetweenCities p) (railPairsInCity p) p.grid_mode rng).1
  if connect_cities_header_raises city_positions cp.outer then .error .indexError
  else .ok (assembleOutput p width height city_positions rng warns)

/-- Everything `generate` does after the feasibility check has passed
(lines 145-194): placement, the grid-mode fallback (with its warning) when
fewer than 2 cities were placed, then the guarded assembly pipeline. -/
def generateAfterFeasibility (p : GenParams) (fuel width height : Nat) (rng : RNG) :
    Except GenError GenOutput :=
  match placeCities p fuel width height rng with
  | .error e => .error e
  | .ok res =>
    if res.1.length < 2 then
      assembleChecked p width height
        (generate_evenly_distr_city_positions (maxFeasibleCities p width height).toNat
          (cityRadius p) width height)
        res.2.1 (res.2.2 ++ ["Changing to Grid mode to place at least 2 cities"])
    else assembleChecked p width height res.1 res.2.1 res.2.2

/-- `SparseRailGen.generate` (lines 90-194).  `fuel` bounds the
clique-rejection `while` loop (which the source does not bound);
`np_random` is the optional externally supplied random state, and
`ambient_seed` stands for the ambient draw `np.random.randint(2**32)` used
when neither a seed nor a state is given. -/
def generate (p : GenParams) (fuel width height num_agents num_resets : Nat)
    (np_random : Option RNG) (ambient_seed : Nat) : Except GenError GenOutput :=
  let rng := initialRng p.seed np_random ambient_seed
  if maxFeasibleCities p width height < 2 then
    .error (.infeasible "Cannot fit more than one city in this map, no feasible environment possible")
  else generateAfterFeasibility p fuel width height rng

end SparseRailGen

section Helpers

open Rail SparseRailGen

/-- Indexing a mapped range. -/
theorem getD_map_range {α : Type} (n i : Nat) (f : Nat → α) (d : α) (h : i < n) :
    ((List.range n).map f).getD i d = f i := by
  rw [List.getD_eq_getElem?_getD]
  simp [List.getElem?_map, List.getElem?_range, h]

/-- Length of a mapped range. -/
theorem length_map_range {α : Type} (n : Nat) (f : Nat → α) :
    ((List.range n).map f).length = n := by
  simp

end Helpers

/-- C10: for every agent, distance map and random state,
`ParamMalfunctionGen.generate` returns `Malfunction(0)` whenever the agent
position is `None`, and the returned `num_broken_steps` is never 1: it is
either 0 or lies between 2 and 50 inclusive.  The floating-point occurrence
and duration comparisons are abstracted as arbitrary boolean oracles, which
covers every possible outcome of the float computations. -/
theorem c10_param_malfunction_range (positionIsNone malfunctionOccurs : Bool)
    (durationHit : Nat → Bool) :
    (positionIsNone = true →
      Malfunction.paramGenerate positionIsNone malfunctionOccurs durationHit = 0) ∧
    (Malfunction.paramGenerate positionIsNone malfunctionOccurs durationHit = 0 ∨
      (2 ≤ Malfunction.paramGenerate positionIsNone malfunctionOccurs durationHit ∧
        Malfunction.paramGenerate positionIsNone malfunctionOccurs durationHit ≤ 50)) := by
  unfold Malfunction.paramGenerate
  constructor
  · intro h
    simp [h]
  · cases positionIsNone with
    | true => simp
    | false =>
      cases malfunctionOccurs with
      | false => simp
      | true =>
        simp only [Bool.false_eq_true, if_false, if_true]
        cases hf : (List.range 49).find? durationHit with
        | none => simp
        | some i =>
          have hmem : i ∈ List.range 49 := List.mem_of_find?_eq_some hf
          have hi : i < 49 := List.mem_range.mp hmem
          right
          show 2 ≤ i + 2 ∧ i + 2 ≤ 50
          omega

/-- Witness for C10 at a concrete oracle assignment. -/
theorem c10_param_malfunction_range_witness :
    Malfunction.paramGenerate true true (fun k => k = 7) = 0 ∧
    (Malfunction.paramGenerate false true (fun k => k = 7) = 0 ∨
      (2 ≤ Malfunction.paramGenerate false true (fun k => k = 7) ∧
        Malfunction.paramGenerate false true (fun k => k = 7) ≤ 50)) :=
  ⟨(c10_param_malfunction_range true true (fun k => k = 7)).1 rfl,
   (c10_param_malfunction_range false true (fun k => k = 7)).2⟩

/-- C6: for every active side with `n` connection slots, the inward offset
of slot `i` equals `|i - n/2| + clip(i - n/2, 0, 1) + 1` (with `n/2` the
integer half), and this offset is at least 1 for every slot, so no slot sits
exactly on the city border. -/
theorem c6_inner_point_offset (n i : Nat) (h : i < n) :
    SparseRailGen.inner_point_offset n i =
      |(i : Int) - ((n / 2 : Nat) : Int)| +
        Rail.clip ((i : Int) - ((n / 2 : Nat) : Int)) 0 1 + 1 ∧
    1 ≤ SparseRailGen.inner_point_offset n i := by
  refine ⟨rfl, ?_⟩
  unfold SparseRailGen.inner_point_offset Rail.clip SparseRailGen.offset_distance
  have h1 : (0 : Int) ≤ |(i : Int) - ((n / 2 : Nat) : Int)| := abs_nonneg _
  have h2 : (0 : Int) ≤ max 0 (min 1 ((i : Int) - ((n / 2 : Nat) : Int))) := le_max_left _ _
  linarith

/-- Witness for C6 at `n = 4`, `i = 0`. -/
theorem c6_inner_point_offset_witness :
    SparseRailGen.inner_point_offset 4 0 =
      |(0 : Int) - ((4 / 2 : Nat) : Int)| +
        Rail.clip ((0 : Int) - ((4 / 2 : Nat) : Int)) 0 1 + 1 ∧
    1 ≤ SparseRailGen.inner_point_offset 4 0 :=
  c6_inner_point_offset 4 0 (by decide)

/-- C7: for every city, `_set_trainstation_positions` returns exactly one
station per free-rail track; the station for track `k` is the pair
`(track[len(track) // 2], k)`; and when the track is non-empty the station
coordinate lies on its own track. -/
theorem c7_trainstation_positions (city_positions : List Rail.Pt) (city_radius : Nat)
    (free_rails : List (List (List Rail.Pt))) (ci : Nat)
    (hci : ci < city_positions.length) :
    ((SparseRailGen.set_trainstation_positions city_positions city_radius
        free_rails).getD ci []).length = (free_rails.getD ci []).length ∧
    (∀ k, k < (free_rails.getD ci []).length →
      ((SparseRailGen.set_trainstation_positions city_positions city_radius
          free_rails).getD ci []).getD k (((0 : Int), (0 : Int)), 0) =
        (((free_rails.getD ci []).getD k []).getD
            (((free_rails.getD ci []).getD k []).length / 2) ((0 : Int), (0 : Int)), k)) ∧
    (∀ k, k < (free_rails.getD ci []).length → (free_rails.getD ci []).getD k [] ≠ [] →
      (((SparseRailGen.set_trainstation_positions city_positions city_radius
          free_rails).getD ci []).getD k (((0 : Int), (0 : Int)), 0)).1 ∈
        (free_rails.getD ci []).getD k []) := by
  unfold SparseRailGen.set_trainstation_positions
  rw [getD_map_range _ _ _ _ hci]
  refine ⟨by simp, ?_, ?_⟩
  · intro k hk
    rw [getD_map_range _ _ _ _ hk]
  · intro k hk hne
    rw [getD_map_range _ _ _ _ hk]
    have hlen : ((free_rails.getD ci []).getD k []).length / 2 <
        ((free_rails.getD ci []).getD k []).length := by
      have : 0 < ((free_rails.getD ci []).getD k []).length :=
        List.length_pos.mpr hne
      omega
    show ((free_rails.getD ci []).getD k []).getD
        (((free_rails.getD ci []).getD k []).length / 2) ((0 : Int), (0 : Int)) ∈
      (free_rails.getD ci []).getD k []
    rw [List.getD_eq_getElem _ _ hlen]
    exact List.getElem_mem _

/-- Witness for C7 at a concrete one-city, one-track instance. -/
theorem c7_trainstation_positions_witness :
    ((SparseRailGen.set_trainstation_positions [((0 : Int), (0 : Int))] 3
        [[[((1 : Int), (1 : Int)), (1, 2), (1, 3)]]]).getD 0 []).length =
      ([[[((1 : Int), (1 : Int)), (1, 2), (1, 3)]]].getD 0 []).length ∧
    ((SparseRailGen.set_trainstation_positions [((0 : Int), (0 : Int))] 3
        [[[((1 : Int), (1 : Int)), (1, 2), (1, 3)]]]).getD 0 []).getD 0
        (((0 : Int), (0 : Int)), 0) =
      ((([[[((1 : Int), (1 : Int)), (1, 2), (1, 3)]]].getD 0 []).getD 0 []).getD 1
          ((0 : Int), (0 : Int)), 0) ∧
    ((((SparseRailGen.set_trainstation_positions [((0 : Int), (0 : Int))] 3
        [[[((1 : Int), (1 : Int)), (1, 2), (1, 3)]]]).getD 0 []).getD 0
        (((0 : Int), (0 : Int)), 0)).1 ∈
      ([[[((1 : Int), (1 : Int)), (1, 2), (1, 3)]]].getD 0 []).getD 0 []) := by
  obtain ⟨h1, h2, h3⟩ := c7_trainstation_positions [((0 : Int), (0 : Int))] 3
    [[[((1 : Int), (1 : Int)), (1, 2), (1, 3)]]] 0 (by decide)
  exact ⟨h1, (h2 0 (by decide)).trans (by decide), h3 0 (by decide) (by decide)⟩

/-- The placement stage only ever fails with fuel exhaustion, never with the
infeasibility error. -/
theorem placeCities_error_eq (p : SparseRailGen.GenParams) (fuel width height : Nat)
    (rng : Rail.RNG) (e : SparseRailGen.GenError)
    (h : SparseRailGen.placeCities p fuel width height rng = .error e) :
    e = SparseRailGen.GenError.placementFuel := by
  unfold SparseRailGen.placeCities at h
  split at h
  · exact absurd h (by simp)
  · split at h
    · cases hres : (SparseRailGen.cliqueLoop
          (SparseRailGen.maxFeasibleCities p width height).toNat
          (SparseRailGen.cityRadius p) width height fuel
          (SparseRailGen.generate_random_city_positions
            (SparseRailGen.maxFeasibleCities p width height).toNat
            (SparseRailGen.cityRadius p) width height rng).1
          (SparseRailGen.generate_random_city_positions
            (SparseRailGen.maxFeasibleCities p width height).toNat
            (SparseRailGen.cityRadius p) width height rng).2.1).result with
      | none =>
        simp only [hres] at h
        simpa using h.symm
      | some qs =>
        simp only [hres] at h
        exact absurd h (by simp)
    · exact absurd h (by simp)

/-- After the feasibility check has passed, `generate` never signals the
infeasibility error. -/
theorem generateAfterFeasibility_not_infeasible (p : SparseRailGen.GenParams)
    (fuel width height : Nat) (rng : Rail.RNG) (msg : String) :
    SparseRailGen.generateAfterFeasibility p fuel width height rng ≠
      .error (.infeasible msg) := by
  unfold SparseRailGen.generateAfterFeasibility
  cases hp : SparseRailGen.placeCities p fuel width height rng with
  | error e =>
    have := placeCities_error_eq p fuel width height rng e hp
    subst this
    simp
  | ok res =>
    split
    next e2 heq => exact absurd heq (by simp)
    next res2 heq =>
      split <;>
        (unfold SparseRailGen.assembleChecked; dsimp only; split <;> simp)

/-- C2: `generate` raises the fatal, distinguishable infeasibility error
(and returns no map) exactly when
`min(max_num_cities, ((height-2) // (2*(city_radius+1))) * ((width-2) // (2*(city_radius+1)))) < 2`;
otherwise generation proceeds past the check (whatever error the model can
still signal is the fuel bound of the placement loop, a different
constructor, never the infeasibility error). -/
theorem c2_infeasibility_error (p : SparseRailGen.GenParams)
    (fuel width height num_agents num_resets : Nat) (np_random : Option Rail.RNG)
    (ambient_seed : Nat) :
    (∃ msg, SparseRailGen.generate p fuel width height num_agents num_resets
        np_random ambient_seed = .error (.infeasible msg)) ↔
      SparseRailGen.maxFeasibleCities p width height < 2 := by
  unfold SparseRailGen.generate
  by_cases h : SparseRailGen.maxFeasibleCities p width height < 2
  · simp only [h, if_true, iff_true]
    exact ⟨_, rfl⟩
  · simp only [h, if_false, iff_false]
    rintro ⟨msg, hmsg⟩
    exact generateAfterFeasibility_not_infeasible p fuel width height _ msg hmsg

/-- Witness for C2: on a 10 by 10 grid with the default parameters the check
fires, on an 18 by 18 grid with one rail pair it does not. -/
theorem c2_infeasibility_error_witness :
    (∃ msg, SparseRailGen.generate {} 5 10 10 1 0 none 0 = .error (.infeasible msg)) ∧
    ¬(∃ msg, SparseRailGen.generate
        { max_num_cities := 2, grid_mode := false, max_rails_between_cities := 2,
          max_rail_pairs_in_city := 1, seed := none } 5 18 18 1 0 none 0 =
        .error (.infeasible msg)) := by
  constructor
  · exact (c2_infeasibility_error {} 5 10 10 1 0 none 0).mpr (by decide)
  · intro hc
    have := (c2_infeasibility_error
      { max_num_cities := 2, grid_mode := false, max_rails_between_cities := 2,
        max_rail_pairs_in_city := 1, seed := none } 5 18 18 1 0 none 0).mp hc
    exact absurd this (by decide)

/-- C1: for every fixed input (width, height, num_agents, num_resets) and
every `SparseRailGen` constructed with a fixed integer seed, two independent
calls to `generate` produce bit-identical results: the seed branch of lines
115-116 rebuilds the random state from the seed on every call, so the output
does not depend on the externally supplied random state or on ambient
randomness, and `generate` is a pure function of the remaining inputs. -/
theorem c1_seeded_determinism (p : SparseRailGen.GenParams) (s : Nat)
    (hseed : p.seed = some s) (fuel width height num_agents num_resets : Nat)
    (r1 r2 : Option Rail.RNG) (a1 a2 : Nat) :
    SparseRailGen.generate p fuel width height num_agents num_resets r1 a1 =
      SparseRailGen.generate p fuel width height num_agents num_resets r2 a2 := by
  unfold SparseRailGen.generate SparseRailGen.initialRng
  rw [hseed]

/-- Witness for C1: a seeded generator gives the same result for two
different external random states and ambient draws. -/
theorem c1_seeded_determinism_witness :
    SparseRailGen.generate
        { max_num_cities := 2, grid_mode := false, max_rails_between_cities := 2,
          max_rail_pairs_in_city := 1, seed := some 3 } 5 18 18 1 0
        (some { stream := fun i => i * i + 17, pos := 4 }) 123 =
      SparseRailGen.generate
        { max_num_cities := 2, grid_mode := false, max_rails_between_cities := 2,
          max_rail_pairs_in_city := 1, seed := some 3 } 5 18 18 1 0 none 999 :=
  c1_seeded_determinism _ 3 rfl 5 18 18 1 0 _ none 123 999

/-- The modelled `direction_to_point` always returns a grid direction. -/
theorem direction_to_point_lt (a b : Rail.Pt) : Rail.direction_to_point a b < 4 := by
  show (if (a.1 - b.1) * (a.1 - b.1) ≥ (a.2 - b.2) * (a.2 - b.2) then
      if a.1 - b.1 > 0 then 0 else 2
    else if a.2 - b.2 > 0 then 3 else 1) < 4
  split_ifs <;> norm_num

/-- Indexing a projection of a mapped list. -/
theorem getD_map_proj {α β : Type} (l : List α) (f : α → β) (i : Nat) (d : α) (db : β)
    (h : i < l.length) : (l.map f).getD i db = f (l.getD i d) := by
  rw [List.getD_eq_getElem _ _ (by simpa using h), List.getElem_map,
    List.getD_eq_getElem _ _ h]

/-- The per-side point counts produced by one city iteration: `nr` on the
orientation side and the opposite side, 0 on the other two sides. -/
theorem cityInnerLists_shape (city : Rail.Pt) (r dirv nr : Nat) (hd : dirv < 4) :
    ((SparseRailGen.cityInnerLists city r dirv nr).getD dirv []).length = nr ∧
    ((SparseRailGen.cityInnerLists city r dirv nr).getD ((dirv + 2) % 4) []).length = nr ∧
    ∀ d, d < 4 → d ≠ dirv → d ≠ (dirv + 2) % 4 →
      ((SparseRailGen.cityInnerLists city r dirv nr).getD d []).length = 0 := by
  have h2 : (dirv + 2) % 4 < 4 := Nat.mod_lt _ (by norm_num)
  unfold SparseRailGen.cityInnerLists
  refine ⟨?_, ?_, ?_⟩
  · rw [getD_map_range _ _ _ _ hd]
    simp [SparseRailGen.connectionsPerDirection]
  · rw [getD_map_range _ _ _ _ h2]
    simp [SparseRailGen.connectionsPerDirection]
  · intro d hd4 hne1 hne2
    rw [getD_map_range _ _ _ _ hd4]
    simp [SparseRailGen.connectionsPerDirection, List.contains_cons, hne1, hne2]

/-- The distributive shape of one city iteration of
`_generate_city_connection_points`: the result is determined by an
orientation below 4 and a drawn pair count between 1 and
`rail_pairs_in_city`. -/
theorem cityConnectionPoints_shape (positions : List Rail.Pt) (city : Rail.Pt)
    (r pairs : Nat) (mode : Bool) (rng : Rail.RNG) (hpairs : 1 ≤ pairs) :
    ∃ dirv dw, dirv < 4 ∧ 1 ≤ dw ∧ dw ≤ pairs ∧
      (SparseRailGen.cityConnectionPoints positions city r pairs mode rng).1 =
        ⟨SparseRailGen.cityInnerLists city r dirv (dw * 2),
         SparseRailGen.cityOuterLists city r dirv (dw * 2),
         dirv, SparseRailGen.get_cells_in_city city r⟩ := by
  have hp : 0 < pairs := hpairs
  cases mode with
  | true =>
    refine ⟨rng.stream rng.pos % 4, 1 + rng.stream (rng.pos + 1) % pairs,
      Nat.mod_lt _ (by norm_num), Nat.le_add_right 1 _, ?_, rfl⟩
    have := Nat.mod_lt (rng.stream (rng.pos + 1)) hp
    omega
  | false =>
    refine ⟨Rail.direction_to_point city
        (positions.getD ((Rail.argsort (positions.map (Rail.manhattan city))).getD 1 0)
          ((0 : Int), (0 : Int))),
      1 + rng.stream rng.pos % pairs,
      direction_to_point_lt _ _, Nat.le_add_right 1 _, ?_, rfl⟩
    have := Nat.mod_lt (rng.stream rng.pos) hp
    omega

/-- `gccpAux` returns one record per city. -/
theorem gccpAux_length (positions : List Rail.Pt) (r pairs : Nat) (mode : Bool) :
    ∀ (rest : List Rail.Pt) (rng : Rail.RNG),
      ((SparseRailGen.gccpAux positions r pairs mode rest rng).1).length = rest.length := by
  intro rest
  induction rest with
  | nil => intro rng; rfl
  | cons c t ih =>
    intro rng
    show ((SparseRailGen.gccpAux positions r pairs mode (c :: t) rng).1).length = t.length + 1
    unfold SparseRailGen.gccpAux
    simp [ih]

/-- Every record produced by `gccpAux` is a single city iteration at some
random state. -/
theorem gccpAux_getD (positions : List Rail.Pt) (r pairs : Nat) (mode : Bool)
    (d0 : SparseRailGen.CityConnPoints) :
    ∀ (rest : List Rail.Pt) (rng : Rail.RNG) (ci : Nat), ci < rest.length →
      ∃ rng2, (SparseRailGen.gccpAux positions r pairs mode rest rng).1.getD ci d0 =
        (SparseRailGen.cityConnectionPoints positions
          (rest.getD ci ((0 : Int), (0 : Int))) r pairs mode rng2).1 := by
  intro rest
  induction rest with
  | nil => intro rng ci h; exact absurd h (by simp)
  | cons c t ih =>
    intro rng ci h
    cases ci with
    | zero => exact ⟨rng, rfl⟩
    | succ n =>
      have hn : n < t.length := by simpa using h
      obtain ⟨rng2, he⟩ := ih
        (SparseRailGen.cityConnectionPoints positions c r pairs mode rng).2 n hn
      exact ⟨rng2, he⟩

/-- C5: for every city produced by `_generate_city_connection_points`,
exactly the orientation side and its opposite receive inner connection
points, both active sides receive the same even number
`nr_of_connection_points = randint(1, rail_pairs_in_city + 1) * 2 = 2 * m`
of points with `1 ≤ m ≤ rail_pairs_in_city`, and the other two sides
receive zero points. -/
theorem c5_city_connection_points (positions : List Rail.Pt)
    (city_radius rails pairs : Nat) (grid_mode : Bool) (rng : Rail.RNG)
    (hlen : 2 ≤ positions.length) (hpairs : 1 ≤ pairs) (ci : Nat)
    (hci : ci < positions.length) :
    ∃ m, 1 ≤ m ∧ m ≤ pairs ∧
      (SparseRailGen.generate_city_connection_points positions city_radius rails pairs
          grid_mode rng).1.orientations.getD ci 0 < 4 ∧
      (((SparseRailGen.generate_city_connection_points positions city_radius rails pairs
          grid_mode rng).1.inner.getD ci []).getD
        ((SparseRailGen.generate_city_connection_points positions city_radius rails pairs
          grid_mode rng).1.orientations.getD ci 0) []).length = 2 * m ∧
      (((SparseRailGen.generate_city_connection_points positions city_radius rails pairs
          grid_mode rng).1.inner.getD ci []).getD
        (((SparseRailGen.generate_city_connection_points positions city_radius rails pairs
          grid_mode rng).1.orientations.getD ci 0 + 2) % 4) []).length = 2 * m ∧
      ∀ d, d < 4 →
        d ≠ (SparseRailGen.generate_city_connection_points positions city_radius rails pairs
          grid_mode rng).1.orientations.getD ci 0 →
        d ≠ ((SparseRailGen.generate_city_connection_points positions city_radius rails pairs
          grid_mode rng).1.orientations.getD ci 0 + 2) % 4 →
        (((SparseRailGen.generate_city_connection_points positions city_radius rails pairs
          grid_mode rng).1.inner.getD ci []).getD d []).length = 0 := by
  have hlen2 : ci <
      ((SparseRailGen.gccpAux positions city_radius pairs grid_mode positions rng).1).length := by
    rw [gccpAux_length]; exact hci
  obtain ⟨rng2, helem⟩ := gccpAux_getD positions city_radius pairs grid_mode
    ⟨[], [], 0, []⟩ positions rng ci hci
  obtain ⟨dirv, dw, hd4, hdw1, hdwp, hshape⟩ := cityConnectionPoints_shape positions
    (positions.getD ci ((0 : Int), (0 : Int))) city_radius pairs grid_mode rng2 hpairs
  have hkey : (SparseRailGen.gccpAux positions city_radius pairs grid_mode
      positions rng).1.getD ci ⟨[], [], 0, []⟩ =
      ⟨SparseRailGen.cityInnerLists (positions.getD ci ((0 : Int), (0 : Int)))
          city_radius dirv (dw * 2),
        SparseRailGen.cityOuterLists (positions.getD ci ((0 : Int), (0 : Int)))
          city_radius dirv (dw * 2),
        dirv, SparseRailGen.get_cells_in_city (positions.getD ci ((0 : Int), (0 : Int)))
          city_radius⟩ := helem.trans hshape
  have hori : (SparseRailGen.generate_city_connection_points positions city_radius rails pairs
      grid_mode rng).1.orientations.getD ci 0 = dirv := by
    show ((SparseRailGen.gccpAux positions city_radius pairs grid_mode positions rng).1.map
      (fun x => x.orientation)).getD ci 0 = dirv
    rw [getD_map_proj _ _ ci ⟨[], [], 0, []⟩ 0 hlen2, hkey]
  have hinner : (SparseRailGen.generate_city_connection_points positions city_radius rails pairs
      grid_mode rng).1.inner.getD ci [] =
      SparseRailGen.cityInnerLists (positions.getD ci ((0 : Int), (0 : Int)))
        city_radius dirv (dw * 2) := by
    show ((SparseRailGen.gccpAux positions city_radius pairs grid_mode positions rng).1.map
      (fun x => x.inner)).getD ci [] = _
    rw [getD_map_proj _ _ ci ⟨[], [], 0, []⟩ [] hlen2, hkey]
  obtain ⟨hA, hB, hC⟩ := cityInnerLists_shape (positions.getD ci ((0 : Int), (0 : Int)))
    city_radius dirv (dw * 2) hd4
  refine ⟨dw, hdw1, hdwp, ?_, ?_, ?_, ?_⟩
  · rw [hori]; exact hd4
  · rw [hori, hinner]
    omega
  · rw [hori, hinner]
    omega
  · intro d hd hne1 hne2
    rw [hori] at hne1 hne2
    rw [hinner]
    exact hC d hd hne1 hne2

/-- Witness for C5 at a concrete two-city instance. -/
theorem c5_city_connection_points_witness :
    ∃ m, 1 ≤ m ∧ m ≤ 1 ∧
      (SparseRailGen.generate_city_connection_points
          [((4 : Int), (7 : Int)), (13, 8)] 3 2 1 false
          { stream := fun _ => 0, pos := 0 }).1.orientations.getD 0 0 < 4 ∧
      (((SparseRailGen.generate_city_connection_points
          [((4 : Int), (7 : Int)), (13, 8)] 3 2 1 false
          { stream := fun _ => 0, pos := 0 }).1.inner.getD 0 []).getD
        ((SparseRailGen.generate_city_connection_points
          [((4 : Int), (7 : Int)), (13, 8)] 3 2 1 false
          { stream := fun _ => 0, pos := 0 }).1.orientations.getD 0 0) []).length = 2 * m ∧
      (((SparseRailGen.generate_city_connection_points
          [((4 : Int), (7 : Int)), (13, 8)] 3 2 1 false
          { stream := fun _ => 0, pos := 0 }).1.inner.getD 0 []).getD
        (((SparseRailGen.generate_city_connection_points
          [((4 : Int), (7 : Int)), (13, 8)] 3 2 1 false
          { stream := fun _ => 0, pos := 0 }).1.orientations.getD 0 0 + 2) % 4) []).length =
        2 * m ∧
      ∀ d, d < 4 →
        d ≠ (SparseRailGen.generate_city_connection_points
          [((4 : Int), (7 : Int)), (13, 8)] 3 2 1 false
          { stream := fun _ => 0, pos := 0 }).1.orientations.getD 0 0 →
        d ≠ ((SparseRailGen.generate_city_connection_points
          [((4 : Int), (7 : Int)), (13, 8)] 3 2 1 false
          { stream := fun _ => 0, pos := 0 }).1.orientations.getD 0 0 + 2) % 4 →
        (((SparseRailGen.generate_city_connection_points
          [((4 : Int), (7 : Int)), (13, 8)] 3 2 1 false
          { stream := fun _ => 0, pos := 0 }).1.inner.getD 0 []).getD d []).length = 0 :=
  c5_city_connection_points [((4 : Int), (7 : Int)), (13, 8)] 3 2 1 false
    { stream := fun _ => 0, pos := 0 } (by decide) (by decide) 0 (by decide)

/-- Chebyshev separation is symmetric. -/
theorem cheb_comm (a b : Rail.Pt) : Rail.cheb a b = Rail.cheb b a := by
  unfold Rail.cheb
  have h1 : (a.1 - b.1).natAbs = (b.1 - a.1).natAbs := by omega
  have h2 : (a.2 - b.2).natAbs = (b.2 - a.2).natAbs := by omega
  rw [h1, h2]

/-- A cell outside the blocked square of a placed city is more than
`2 * pad1` away in Chebyshev distance. -/
theorem cheb_of_not_blocked (pad1 : Nat) (p cell : Rail.Pt)
    (h : SparseRailGen.blockedBy pad1 p cell = false) :
    2 * (pad1 : Int) < Rail.cheb p cell := by
  unfold SparseRailGen.blockedBy at h
  simp only [Bool.and_eq_false_iff, decide_eq_false_iff_not, not_le] at h
  unfold Rail.cheb
  rw [lt_max_iff]
  rcases h with ((h1 | h2) | h3) | h4
  · left; omega
  · left; omega
  · right; omega
  · right; omega

/-- Membership in the allowed mask implies not being blocked by any placed
city. -/
theorem allowedCells_not_blocked (height width pad1 : Nat) (placed : List Rail.Pt)
    (cell : Rail.Pt) (hmem : cell ∈ SparseRailGen.allowedCells height width pad1 placed)
    (p : Rail.Pt) (hp : p ∈ placed) : SparseRailGen.blockedBy pad1 p cell = false := by
  unfold SparseRailGen.allowedCells at hmem
  rw [List.mem_filter] at hmem
  have h2 := hmem.2
  simp only [Bool.and_eq_true, List.all_eq_true, Bool.not_eq_true'] at h2
  exact h2.2 p hp

/-- Throughout the sampling loop, the accumulated city positions stay
pairwise separated by more than `2 * (city_radius + 1)`. -/
theorem randomCityPositionsAux_pairwise (cityRadius height width : Nat) :
    ∀ (n : Nat) (acc : List Rail.Pt) (rng : Rail.RNG),
      acc.Pairwise (fun p q => 2 * ((cityRadius : Int) + 1) < Rail.cheb p q) →
      ((SparseRailGen.randomCityPositionsAux cityRadius height width n acc rng).1).Pairwise
        (fun p q => 2 * ((cityRadius : Int) + 1) < Rail.cheb p q) := by
  intro n
  induction n with
  | zero => intro acc rng h; exact h
  | succ m ih =>
    intro acc rng h
    show ((SparseRailGen.randomCityPositionsAux cityRadius height width (m + 1) acc rng).1).Pairwise _
    unfold SparseRailGen.randomCityPositionsAux
    by_cases hz :
        (SparseRailGen.allowedCells height width (cityRadius + 1) acc).length = 0
    · simpa [hz] using h
    · simp only [hz, if_false]
      apply ih
      rw [List.pairwise_append]
      have hlt : (rng.randint
            (SparseRailGen.allowedCells height width (cityRadius + 1) acc).length).1 <
          (SparseRailGen.allowedCells height width (cityRadius + 1) acc).length := by
        have : 0 <
            (SparseRailGen.allowedCells height width (cityRadius + 1) acc).length :=
          Nat.pos_of_ne_zero hz
        exact Nat.mod_lt _ this
      have hmem : (SparseRailGen.allowedCells height width (cityRadius + 1) acc).getD
          (rng.randint
            (SparseRailGen.allowedCells height width (cityRadius + 1) acc).length).1
          ((0 : Int), (0 : Int)) ∈
          SparseRailGen.allowedCells height width (cityRadius + 1) acc := by
        rw [List.getD_eq_getElem _ _ hlt]
        exact List.getElem_mem _
      refine ⟨h, List.pairwise_singleton _ _, ?_⟩
      intro a ha b hb
      rw [List.mem_singleton] at hb
      subst hb
      have hnb := allowedCells_not_blocked height width (cityRadius + 1) acc _ hmem a ha
      have := cheb_of_not_blocked (cityRadius + 1) a _ hnb
      calc 2 * ((cityRadius : Int) + 1) = 2 * (((cityRadius + 1 : Nat) : Int)) := by
            push_cast; ring
        _ < _ := this

/-- Entry formula of the idealised integer linspace (at least two samples). -/
theorem linspaceNat_getD (a b m i : Nat) (hm : 2 ≤ m) (hi : i < m) :
    (SparseRailGen.linspaceNat a b m).getD i 0 = a + i * (b - a) / (m - 1) := by
  unfold SparseRailGen.linspaceNat
  rw [if_neg (by omega)]
  exact getD_map_range m i _ 0 hi

/-- Consecutive linspace samples are at least `gap` apart whenever the whole
span is at least `(m - 1) * gap`. -/
theorem linspaceNat_gap (a b m i j gap : Nat) (hij : i < j) (hj : j < m)
    (hgap : (m - 1) * gap ≤ b - a) :
    (SparseRailGen.linspaceNat a b m).getD i 0 + gap ≤
      (SparseRailGen.linspaceNat a b m).getD j 0 := by
  have hm : 2 ≤ m := by omega
  have hd : 0 < m - 1 := by omega
  rw [linspaceNat_getD a b m i hm (by omega), linspaceNat_getD a b m j hm hj]
  have ha : (i + 1) * (b - a) ≤ j * (b - a) := Nat.mul_le_mul_right _ (by omega)
  have hb : (i + 1) * (b - a) = i * (b - a) + (b - a) := by ring
  have h1 : i * (b - a) + (m - 1) * gap ≤ j * (b - a) := by omega
  have h2 : (i * (b - a) + (m - 1) * gap) / (m - 1) ≤ j * (b - a) / (m - 1) :=
    Nat.div_le_div_right h1
  rw [Nat.add_mul_div_left _ _ hd] at h2
  omega

/-- The exact ceiling square root of the aspect ratio is positive for a
positive city count on a grid of positive height. -/
theorem ceilSqrtRatio_pos (num h w : Nat) (hn : 1 ≤ num) (hh : 1 ≤ h) :
    1 ≤ SparseRailGen.ceilSqrtRatio num h w := by
  unfold SparseRailGen.ceilSqrtRatio
  cases hf : (List.range (num * h + 1)).find? (fun k => num * h ≤ k * k * w) with
  | none => simpa using Nat.mul_le_mul hn hh
  | some k =>
    have hk := List.find?_some hf
    simp only [decide_eq_true_eq] at hk
    have : k ≠ 0 := by
      intro h0
      subst h0
      simp at hk
      omega
    show 1 ≤ k
    omega

/-- Any two distinct cities of the evenly distributed lattice are separated
by at least `2 * city_radius + 2` in Chebyshev distance. -/
theorem evenly_separation (num r w h : Nat) (hh : 2 * r + 4 ≤ h) (hw : 2 * r + 4 ≤ w)
    (hn : 1 ≤ num) (p q : Rail.Pt)
    (hp : p ∈ SparseRailGen.generate_evenly_distr_city_positions num r w h)
    (hq : q ∈ SparseRailGen.generate_evenly_distr_city_positions num r w h)
    (hne : p ≠ q) : 2 * (r : Int) + 2 ≤ Rail.cheb p q := by
  simp only [SparseRailGen.generate_evenly_distr_city_positions, List.mem_map,
    List.mem_range] at hp hq
  obtain ⟨k, hk, hpk⟩ := hp
  obtain ⟨l, hl, hql⟩ := hq
  subst hpk
  subst hql
  set cpr := min (SparseRailGen.ceilSqrtRatio num h w) ((h - 2) / (2 * (r + 1))) with hcpr
  set cpc := min ((num + cpr - 1) / cpr) ((w - 2) / (2 * (r + 1))) with hcpc
  have hcpr1 : 1 ≤ cpr :=
    le_min (ceilSqrtRatio_pos num h w hn (by omega))
      ((Nat.one_le_div_iff (by omega)).mpr (by omega))
  have hcpc1 : 1 ≤ cpc :=
    le_min ((Nat.one_le_div_iff (by omega)).mpr (by omega))
      ((Nat.one_le_div_iff (by omega)).mpr (by omega))
  have hrow : cpr * (2 * (r + 1)) ≤ h - 2 := by
    have h1 : cpr ≤ (h - 2) / (2 * (r + 1)) := min_le_right _ _
    calc cpr * (2 * (r + 1)) ≤ ((h - 2) / (2 * (r + 1))) * (2 * (r + 1)) :=
          Nat.mul_le_mul_right _ h1
      _ ≤ h - 2 := Nat.div_mul_le_self _ _
  have hcol : cpc * (2 * (r + 1)) ≤ w - 2 := by
    have h1 : cpc ≤ (w - 2) / (2 * (r + 1)) := min_le_right _ _
    calc cpc * (2 * (r + 1)) ≤ ((w - 2) / (2 * (r + 1))) * (2 * (r + 1)) :=
          Nat.mul_le_mul_right _ h1
      _ ≤ w - 2 := Nat.div_mul_le_self _ _
  have hkb : k < cpc * cpr := lt_of_lt_of_le hk (min_le_right _ _)
  have hlb : l < cpc * cpr := lt_of_lt_of_le hl (min_le_right _ _)
  have hkdiv : k / cpr < cpc := (Nat.div_lt_iff_lt_mul (by omega)).mpr hkb
  have hldiv : l / cpr < cpc := (Nat.div_lt_iff_lt_mul (by omega)).mpr hlb
  have hkmod : k % cpr < cpr := Nat.mod_lt _ (by omega)
  have hlmod : l % cpr < cpr := Nat.mod_lt _ (by omega)
  have hne2 : k ≠ l := by
    intro he
    subst he
    exact hne rfl
  have hrowspan : (cpr - 1) * (2 * (r + 1)) ≤ (h - (r + 2)) - (r + 2) := by
    have e3 : (cpr - 1) * (2 * (r + 1)) + (2 * (r + 1)) = cpr * (2 * (r + 1)) := by
      have e4 : cpr - 1 + 1 = cpr := by omega
      calc (cpr - 1) * (2 * (r + 1)) + (2 * (r + 1))
          = (cpr - 1 + 1) * (2 * (r + 1)) := by ring
        _ = cpr * (2 * (r + 1)) := by rw [e4]
    omega
  have hcolspan : (cpc - 1) * (2 * (r + 1)) ≤ (w - (r + 2)) - (r + 2) := by
    have e3 : (cpc - 1) * (2 * (r + 1)) + (2 * (r + 1)) = cpc * (2 * (r + 1)) := by
      have e4 : cpc - 1 + 1 = cpc := by omega
      calc (cpc - 1) * (2 * (r + 1)) + (2 * (r + 1))
          = (cpc - 1 + 1) * (2 * (r + 1)) := by ring
        _ = cpc * (2 * (r + 1)) := by rw [e4]
    omega
  by_cases hm : k % cpr = l % cpr
  · have hdivne : k / cpr ≠ l / cpr := by
      intro hd
      apply hne2
      have e1 := Nat.div_add_mod k cpr
      have e2 := Nat.div_add_mod l cpr
      rw [← hd, ← hm] at e2
      omega
    have key : ∀ i j : Nat, i < j → j < cpc →
        (SparseRailGen.linspaceNat (r + 2) (w - (r + 2)) cpc).getD i 0 + 2 * (r + 1) ≤
          (SparseRailGen.linspaceNat (r + 2) (w - (r + 2)) cpc).getD j 0 := by
      intro i j hij hj
      exact linspaceNat_gap (r + 2) (w - (r + 2)) cpc i j (2 * (r + 1)) hij hj hcolspan
    unfold Rail.cheb
    dsimp only
    apply le_trans _ (le_max_right _ _)
    rcases Nat.lt_or_ge (k / cpr) (l / cpr) with hlt | hge
    · have := key _ _ hlt hldiv
      omega
    · have hlt2 : l / cpr < k / cpr := lt_of_le_of_ne hge (Ne.symm hdivne)
      have := key _ _ hlt2 hkdiv
      omega
  · have key : ∀ i j : Nat, i < j → j < cpr →
        (SparseRailGen.linspaceNat (r + 2) (h - (r + 2)) cpr).getD i 0 + 2 * (r + 1) ≤
          (SparseRailGen.linspaceNat (r + 2) (h - (r + 2)) cpr).getD j 0 := by
      intro i j hij hj
      exact linspaceNat_gap (r + 2) (h - (r + 2)) cpr i j (2 * (r + 1)) hij hj hrowspan
    unfold Rail.cheb
    dsimp only
    apply le_trans _ (le_max_left _ _)
    rcases Nat.lt_or_ge (k % cpr) (l % cpr) with hlt | hge
    · have := key _ _ hlt hlmod
      omega
    · have hlt2 : l % cpr < k % cpr := lt_of_le_of_ne hge (Ne.symm hm)
      have := key _ _ hlt2 hkmod
      omega

/-- C4: for every pair of distinct city centers placed by either placement
mode (random via the exclusion mask, or evenly spaced grid), the Chebyshev
separation of the centers is at least `2 * city_radius + 1`, so the
`(2*radius+1)`-sided city squares never overlap.  (The random mask in fact
guarantees separation greater than `2 * (city_radius + 1)`, and the lattice
at least `2 * city_radius + 2`, both of which imply the claimed bound; the
grid-mode hypotheses hold whenever the generator's feasibility check has
passed.) -/
theorem c4_city_nonoverlap :
    (∀ (num r w h : Nat) (rng : Rail.RNG) (p q : Rail.Pt),
      p ∈ (SparseRailGen.generate_random_city_positions num r w h rng).1 →
      q ∈ (SparseRailGen.generate_random_city_positions num r w h rng).1 →
      p ≠ q → 2 * (r : Int) + 1 ≤ Rail.cheb p q) ∧
    (∀ (num r w h : Nat), 2 * r + 4 ≤ h → 2 * r + 4 ≤ w → 1 ≤ num →
      ∀ (p q : Rail.Pt),
      p ∈ SparseRailGen.generate_evenly_distr_city_positions num r w h →
      q ∈ SparseRailGen.generate_evenly_distr_city_positions num r w h →
      p ≠ q → 2 * (r : Int) + 1 ≤ Rail.cheb p q) := by
  constructor
  · intro num r w h rng p q hp hq hne
    have hpw : ((SparseRailGen.randomCityPositionsAux r h w num [] rng).1).Pairwise
        (fun a b => 2 * ((r : Int) + 1) < Rail.cheb a b) :=
      randomCityPositionsAux_pairwise r h w num [] rng List.Pairwise.nil
    have hsym : Symmetric (fun a b : Rail.Pt => 2 * ((r : Int) + 1) < Rail.cheb a b) := by
      intro a b hab
      show 2 * ((r : Int) + 1) < Rail.cheb b a
      rw [cheb_comm b a]
      exact hab
    have hp2 : p ∈ (SparseRailGen.randomCityPositionsAux r h w num [] rng).1 := hp
    have hq2 : q ∈ (SparseRailGen.randomCityPositionsAux r h w num [] rng).1 := hq
    have hlt := hpw.forall hsym hp2 hq2 hne
    omega
  · intro num r w h hh hw hn p q hp hq hne
    have := evenly_separation num r w h hh hw hn p q hp hq hne
    omega

set_option maxRecDepth 100000 in
/-- Witness for C4: a concrete random placement and a concrete lattice
placement, both with separated pairs. -/
theorem c4_city_nonoverlap_witness :
    2 * (3 : Int) + 1 ≤ Rail.cheb ((4 : Int), (4 : Int)) ((4 : Int), (13 : Int)) ∧
    2 * (3 : Int) + 1 ≤ Rail.cheb ((5 : Int), (5 : Int)) ((13 : Int), (5 : Int)) := by
  constructor
  · exact c4_city_nonoverlap.1 2 3 18 18 { stream := fun _ => 0, pos := 0 }
      ((4 : Int), (4 : Int)) ((4 : Int), (13 : Int)) (by decide) (by decide) (by decide)
  · exact c4_city_nonoverlap.2 2 3 18 18 (by decide) (by decide) (by decide)
      ((5 : Int), (5 : Int)) ((13 : Int), (5 : Int)) (by decide) (by decide) (by decide)

set_option maxRecDepth 1000000 in
/-- Counterexample for C3: with more than 4 requested cities in random mode
and the periodic random stream 0,25,0,0,25,0,... on a 22 by 18 grid, every
placement attempt yields the same 3 clustered cities, the clique predicate
stays positive, and the `while contains_cliques` loop of lines 157-160
redoes the placement once per unit of fuel without ever settling: 3 redos
with fuel 3, 7 redos with fuel 7, and `generate` never completes for this
random state.  This contradicts the claim that the component performs no
internal retry loop beyond a single clique-detection retry and that
`generate` executes a bounded number of placement attempts for every input
and random state. -/
theorem c3_counterexample :
    (SparseRailGen.cliqueLoop 4 3 22 18 3
      (SparseRailGen.generate_random_city_positions 4 3 22 18
        { stream := fun i => if i % 3 == 1 then 25 else 0, pos := 0 }).1
      (SparseRailGen.generate_random_city_positions 4 3 22 18
        { stream := fun i => if i % 3 == 1 then 25 else 0, pos := 0 }).2.1).attempts = 3 ∧
    (SparseRailGen.cliqueLoop 4 3 22 18 7
      (SparseRailGen.generate_random_city_positions 4 3 22 18
        { stream := fun i => if i % 3 == 1 then 25 else 0, pos := 0 }).1
      (SparseRailGen.generate_random_city_positions 4 3 22 18
        { stream := fun i => if i % 3 == 1 then 25 else 0, pos := 0 }).2.1).attempts = 7 ∧
    SparseRailGen.generate
      { max_num_cities := 5, grid_mode := false, max_rails_between_cities := 2,
        max_rail_pairs_in_city := 1, seed := none } 7 22 18 1 0
      (some { stream := fun i => if i % 3 == 1 then 25 else 0, pos := 0 }) 0 =
      .error .placementFuel := by
  refine ⟨by decide, by decide, by rfl⟩

/-- C3 (amended): when more than 4 cities are requested in random mode, the
placement result is passed to the clique predicate; on a positive detection
the placement is redone inside an internal `while` loop that repeats until
the predicate is negative.  The loop returns only clique-free placements,
and while the predicate stays positive it performs one fresh placement per
iteration, so the number of placement attempts depends on the random state
and is not bounded by a single retry. -/
theorem c3_clique_loop_retries (num r w h fuel : Nat) (ps : List Rail.Pt)
    (rng : Rail.RNG) :
    ((SparseRailGen.cliqueLoop num r w h fuel ps rng).result = none →
      (SparseRailGen.cliqueLoop num r w h fuel ps rng).attempts = fuel) ∧
    (∀ qs, (SparseRailGen.cliqueLoop num r w h fuel ps rng).result = some qs →
      SparseRailGen.contains_cliques qs = false) := by
  induction fuel generalizing ps rng with
  | zero =>
    by_cases hc : SparseRailGen.contains_cliques ps
    · constructor
      · intro _
        simp [SparseRailGen.cliqueLoop, hc]
      · intro qs hq
        rw [show (SparseRailGen.cliqueLoop num r w h 0 ps rng).result = none by
          simp [SparseRailGen.cliqueLoop, hc]] at hq
        exact absurd hq (by simp)
    · constructor
      · intro hn
        rw [show (SparseRailGen.cliqueLoop num r w h 0 ps rng).result = some ps by
          simp [SparseRailGen.cliqueLoop, hc]] at hn
        exact absurd hn (by simp)
      · intro qs hq
        rw [show (SparseRailGen.cliqueLoop num r w h 0 ps rng).result = some ps by
          simp [SparseRailGen.cliqueLoop, hc]] at hq
        have : ps = qs := by simpa using hq
        subst this
        simpa using hc
  | succ n ih =>
    by_cases hc : SparseRailGen.contains_cliques ps
    · have hres : SparseRailGen.cliqueLoop num r w h (n + 1) ps rng =
          ⟨(SparseRailGen.cliqueLoop num r w h n
              (SparseRailGen.generate_random_city_positions num r w h rng).1
              (SparseRailGen.generate_random_city_positions num r w h rng).2.1).result,
            (SparseRailGen.cliqueLoop num r w h n
              (SparseRailGen.generate_random_city_positions num r w h rng).1
              (SparseRailGen.generate_random_city_positions num r w h rng).2.1).rng,
            (SparseRailGen.cliqueLoop num r w h n
              (SparseRailGen.generate_random_city_positions num r w h rng).1
              (SparseRailGen.generate_random_city_positions num r w h rng).2.1).attempts + 1,
            (SparseRailGen.generate_random_city_positions num r w h rng).2.2 ++
              (SparseRailGen.cliqueLoop num r w h n
                (SparseRailGen.generate_random_city_positions num r w h rng).1
                (SparseRailGen.generate_random_city_positions num r w h rng).2.1).warnings⟩ := by
        simp [SparseRailGen.cliqueLoop, hc]
      constructor
      · intro hn
        rw [hres] at hn ⊢
        have := (ih (SparseRailGen.generate_random_city_positions num r w h rng).1
          (SparseRailGen.generate_random_city_positions num r w h rng).2.1).1 hn
        simpa using this
      · intro qs hq
        rw [hres] at hq
        exact (ih (SparseRailGen.generate_random_city_positions num r w h rng).1
          (SparseRailGen.generate_random_city_positions num r w h rng).2.1).2 qs hq
    · have hres : SparseRailGen.cliqueLoop num r w h (n + 1) ps rng =
          ⟨some ps, rng, 0, []⟩ := by
        simp [SparseRailGen.cliqueLoop, hc]
      constructor
      · intro hn
        rw [hres] at hn
        exact absurd hn (by simp)
      · intro qs hq
        rw [hres] at hq
        have : ps = qs := by simpa using hq
        subst this
        simpa using hc

set_option maxRecDepth 1000000 in
/-- Witness for the amended C3: fuel exhaustion on the periodic stream
performs one placement per fuel unit, and a successful exit is clique-free. -/
theorem c3_clique_loop_retries_witness :
    (SparseRailGen.cliqueLoop 4 3 22 18 3 [((4 : Int), (4 : Int)), (9, 13), (13, 4)]
      { stream := fun i => if i % 3 == 1 then 25 else 0, pos := 3 }).attempts = 3 ∧
    SparseRailGen.contains_cliques
      [((20 : Int), (0 : Int)), (14, 14), (0, 20), (-14, 14), (-20, 0), (-14, -14),
        (0, -20), (14, -14)] = false := by
  constructor
  · exact (c3_clique_loop_retries 4 3 22 18 3 [((4 : Int), (4 : Int)), (9, 13), (13, 4)]
      { stream := fun i => if i % 3 == 1 then 25 else 0, pos := 3 }).1 (by decide)
  · exact (c3_clique_loop_retries 4 3 22 18 0
      [((20 : Int), (0 : Int)), (14, 14), (0, 20), (-14, 14), (-20, 0), (-14, -14),
        (0, -20), (14, -14)] { stream := fun _ => 0, pos := 0 }).2 _ (by decide)

/-- With random mode and at most 4 requested cities, the placement stage is
exactly one call to `_generate_random_city_positions`. -/
theorem placeCities_random_small (p : SparseRailGen.GenParams) (fuel width height : Nat)
    (rng : Rail.RNG) (hgm : p.grid_mode = false) (hmax : p.max_num_cities ≤ 4) :
    SparseRailGen.placeCities p fuel width height rng =
      .ok ((SparseRailGen.generate_random_city_positions
              (SparseRailGen.maxFeasibleCities p width height).toNat
              (SparseRailGen.cityRadius p) width height rng).1,
           (SparseRailGen.generate_random_city_positions
              (SparseRailGen.maxFeasibleCities p width height).toNat
              (SparseRailGen.cityRadius p) width height rng).2.1,
           (SparseRailGen.generate_random_city_positions
              (SparseRailGen.maxFeasibleCities p width height).toNat
              (SparseRailGen.cityRadius p) width height rng).2.2) := by
  unfold SparseRailGen.placeCities
  rw [hgm]
  rw [if_neg (by simp)]
  rw [if_neg (by omega)]

/-- `generate` in random mode with at most 4 requested cities and a feasible
configuration: either the random placement is kept, or (with fewer than 2
cities placed) the evenly spaced fallback is used with its warning; the
committed list then enters the guarded assembly pipeline. -/
theorem generate_random_mode_eq (p : SparseRailGen.GenParams)
    (fuel width height num_agents num_resets : Nat) (np_random : Option Rail.RNG)
    (ambient_seed : Nat) (hgm : p.grid_mode = false) (hmax : p.max_num_cities ≤ 4)
    (hfeas : ¬SparseRailGen.maxFeasibleCities p width height < 2) :
    SparseRailGen.generate p fuel width height num_agents num_resets np_random
        ambient_seed =
      if (SparseRailGen.generate_random_city_positions
            (SparseRailGen.maxFeasibleCities p width height).toNat
            (SparseRailGen.cityRadius p) width height
            (SparseRailGen.initialRng p.seed np_random ambient_seed)).1.length < 2 then
        SparseRailGen.assembleChecked p width height
          (SparseRailGen.generate_evenly_distr_city_positions
            (SparseRailGen.maxFeasibleCities p width height).toNat
            (SparseRailGen.cityRadius p) width height)
          (SparseRailGen.generate_random_city_positions
            (SparseRailGen.maxFeasibleCities p width height).toNat
            (SparseRailGen.cityRadius p) width height
            (SparseRailGen.initialRng p.seed np_random ambient_seed)).2.1
          ((SparseRailGen.generate_random_city_positions
            (SparseRailGen.maxFeasibleCities p width height).toNat
            (SparseRailGen.cityRadius p) width height
            (SparseRailGen.initialRng p.seed np_random ambient_seed)).2.2 ++
            ["Changing to Grid mode to place at least 2 cities"])
      else
        SparseRailGen.assembleChecked p width height
          (SparseRailGen.generate_random_city_positions
            (SparseRailGen.maxFeasibleCities p width height).toNat
            (SparseRailGen.cityRadius p) width height
            (SparseRailGen.initialRng p.seed np_random ambient_seed)).1
          (SparseRailGen.generate_random_city_positions
            (SparseRailGen.maxFeasibleCities p width height).toNat
            (SparseRailGen.cityRadius p) width height
            (SparseRailGen.initialRng p.seed np_random ambient_seed)).2.1
          (SparseRailGen.generate_random_city_positions
            (SparseRailGen.maxFeasibleCities p width height).toNat
            (SparseRailGen.cityRadius p) width height
            (SparseRailGen.initialRng p.seed np_random ambient_seed)).2.2 := by
  unfold SparseRailGen.generate
  rw [if_neg hfeas]
  unfold SparseRailGen.generateAfterFeasibility
  rw [placeCities_random_small p fuel width height _ hgm hmax]

/-- One city iteration of `_generate_city_connection_points` in random mode,
explicitly: the orientation is the direction toward the closest other city
(rank 1 of the stable argsort), independent of the random state, and the
point count is `randint(1, rail_pairs_in_city + 1) * 2`. -/
theorem cityConnectionPoints_random_eq (positions : List Rail.Pt) (city : Rail.Pt)
    (r pairs : Nat) (rng : Rail.RNG) :
    (SparseRailGen.cityConnectionPoints positions city r pairs false rng).1 =
      ⟨SparseRailGen.cityInnerLists city r
         (Rail.direction_to_point city
           (positions.getD ((Rail.argsort (positions.map (Rail.manhattan city))).getD 1 0)
             ((0 : Int), (0 : Int))))
         ((1 + rng.stream rng.pos % pairs) * 2),
       SparseRailGen.cityOuterLists city r
         (Rail.direction_to_point city
           (positions.getD ((Rail.argsort (positions.map (Rail.manhattan city))).getD 1 0)
             ((0 : Int), (0 : Int))))
         ((1 + rng.stream rng.pos % pairs) * 2),
       Rail.direction_to_point city
         (positions.getD ((Rail.argsort (positions.map (Rail.manhattan city))).getD 1 0)
           ((0 : Int), (0 : Int))),
       SparseRailGen.get_cells_in_city city r⟩ := rfl

/-- The outer connection-point list on the orientation side is never empty:
the two middle slots of `range(start_idx, start_idx + 2)` always project
outer points. -/
theorem cityOuterLists_orientation_ne_nil (city : Rail.Pt) (r dirv dw : Nat)
    (hd : dirv < 4) (hdw : 1 ≤ dw) :
    (SparseRailGen.cityOuterLists city r dirv (dw * 2)).getD dirv [] ≠ [] := by
  unfold SparseRailGen.cityOuterLists
  rw [getD_map_range _ _ _ _ hd]
  intro hnil
  have hmem : dw - 1 ∈ (List.range
      (SparseRailGen.connectionsPerDirection dirv (dw * 2) dirv)).filter
      (fun i => decide ((dw * 2 - 2) / 2 ≤ i ∧ i < (dw * 2 - 2) / 2 + 2)) := by
    apply List.mem_filter.mpr
    refine ⟨List.mem_range.mpr ?_, ?_⟩
    · unfold SparseRailGen.connectionsPerDirection
      rw [if_pos (by simp)]
      omega
    · simp only [decide_eq_true_eq]
      omega
  have hmm := List.mem_map_of_mem
    (fun i => SparseRailGen.outerCoord city r ((dw * 2 - 2) / 2) dirv i) hmem
  rw [List.eq_nil_iff_forall_not_mem] at hnil
  exact hnil _ hmm

/-- In random mode the closest side of every city carries outer connection
points: the emptiness test of line 496 is false, so `_connect_cities` enters
the else branch of line 499 for every city. -/
theorem gccp_random_closest_side_ne_nil (positions : List Rail.Pt)
    (r rails pairs : Nat) (rng : Rail.RNG) (ci : Nat) (hci : ci < positions.length) :
    ((SparseRailGen.generate_city_connection_points positions r rails pairs false
        rng).1.outer.getD ci []).getD
      (SparseRailGen.cityClosestDirection positions ci) [] ≠ [] := by
  unfold SparseRailGen.generate_city_connection_points
  dsimp only
  have hlen := gccpAux_length positions r pairs false positions rng
  rw [getD_map_proj ((SparseRailGen.gccpAux positions r pairs false positions rng).1)
    (fun x => x.outer) ci ⟨[], [], 0, []⟩ [] (by rw [hlen]; exact hci)]
  obtain ⟨rng2, he⟩ :=
    gccpAux_getD positions r pairs false ⟨[], [], 0, []⟩ positions rng ci hci
  rw [he, cityConnectionPoints_random_eq]
  have hD : SparseRailGen.cityClosestDirection positions ci =
      Rail.direction_to_point (positions.getD ci ((0 : Int), (0 : Int)))
        (positions.getD ((Rail.argsort (positions.map
            (Rail.manhattan (positions.getD ci ((0 : Int), (0 : Int)))))).getD 1 0)
          ((0 : Int), (0 : Int))) := rfl
  rw [hD]
  exact cityOuterLists_orientation_ne_nil _ r _ _ (direction_to_point_lt _ _)
    (Nat.le_add_right 1 _)

/-- With at least 3 cities every `closest_neighb_idx` access is in range and
the model signals no IndexError. -/
theorem connect_cities_header_raises_ge3 (positions : List Rail.Pt)
    (cpo : List (List (List Rail.Pt))) (h : 3 ≤ positions.length) :
    SparseRailGen.connect_cities_header_raises positions cpo = false := by
  unfold SparseRailGen.connect_cities_header_raises
  rw [List.any_eq_false]
  intro idx hmem
  have e1 : decide (positions.length < 2) = false := decide_eq_false (by omega)
  have e2 : decide (positions.length < 3) = false := decide_eq_false (by omega)
  simp [e1, e2]

/-- With at least 3 cities the guarded assembly completes. -/
theorem assembleChecked_ge3 (p : SparseRailGen.GenParams) (width height : Nat)
    (ps : List Rail.Pt) (rng : Rail.RNG) (warns : List String)
    (h3 : 3 ≤ ps.length) :
    SparseRailGen.assembleChecked p width height ps rng warns =
      .ok (SparseRailGen.assembleOutput p width height ps rng warns) := by
  unfold SparseRailGen.assembleChecked
  dsimp only
  rw [connect_cities_header_raises_ge3 ps _ h3]
  rfl

/-- On a 2-city list in random mode the guarded assembly always signals the
IndexError: line 496 finds points on the closest side of city 0 (its
orientation side, chosen toward the same closest neighbour by the same
stable argsort), and line 500 then indexes rank 2 of the 2-entry argsort. -/
theorem assembleChecked_two_random (p : SparseRailGen.GenParams) (width height : Nat)
    (ps : List Rail.Pt) (rng : Rail.RNG) (warns : List String)
    (hgm : p.grid_mode = false) (h2 : ps.length = 2) :
    SparseRailGen.assembleChecked p width height ps rng warns =
      .error .indexError := by
  unfold SparseRailGen.assembleChecked
  dsimp only
  rw [hgm]
  have hraise : SparseRailGen.connect_cities_header_raises ps
      ((SparseRailGen.generate_city_connection_points ps (SparseRailGen.cityRadius p)
        (SparseRailGen.railsBetweenCities p) (SparseRailGen.railPairsInCity p) false
        rng).1).outer = true := by
    unfold SparseRailGen.connect_cities_header_raises
    apply List.any_eq_true.mpr
    refine ⟨0, List.mem_range.mpr (by omega), ?_⟩
    have hne := gccp_random_closest_side_ne_nil ps (SparseRailGen.cityRadius p)
      (SparseRailGen.railsBetweenCities p) (SparseRailGen.railPairsInCity p) rng 0
      (by omega)
    have hA : (((SparseRailGen.generate_city_connection_points ps
        (SparseRailGen.cityRadius p) (SparseRailGen.railsBetweenCities p)
        (SparseRailGen.railPairsInCity p) false rng).1.outer.getD 0 []).getD
          (SparseRailGen.cityClosestDirection ps 0) []).isEmpty = false := by
      cases hcase : (((SparseRailGen.generate_city_connection_points ps
          (SparseRailGen.cityRadius p) (SparseRailGen.railsBetweenCities p)
          (SparseRailGen.railPairsInCity p) false rng).1.outer.getD 0 []).getD
            (SparseRailGen.cityClosestDirection ps 0) []) with
      | nil => exact absurd hcase hne
      | cons a t => rfl
    rw [hA, decide_eq_true (show ps.length < 3 by omega)]
    simp
  rw [hraise]
  rfl

/-- C9 (amended): when random-mode placement exhausts the allowed mask
before reaching the requested count, it emits the shortfall warning; when at
least 3 cities were placed, generation proceeds with exactly the placed
prefix and surfaces the warning; when exactly 2 cities were placed,
generation returns nothing at all: `_connect_cities` raises an uncaught
IndexError at line 500, indexing rank 2 of the 2-entry distance argsort;
when fewer than 2 were placed, the prefix is not kept but replaced (with its
own warning, so never silently) by evenly spaced grid placement, after which
generation completes with the replaced list or dies with the same IndexError
when that list again has exactly 2 entries.  Stated for random mode without
the clique gate (`max_num_cities ≤ 4`) on feasible configurations. -/
theorem c9_random_shortfall (p : SparseRailGen.GenParams)
    (fuel width height num_agents num_resets : Nat) (np_random : Option Rail.RNG)
    (ambient_seed : Nat) (hgm : p.grid_mode = false) (hmax : p.max_num_cities ≤ 4)
    (hfeas : ¬SparseRailGen.maxFeasibleCities p width height < 2) :
    (3 ≤ (SparseRailGen.generate_random_city_positions
            (SparseRailGen.maxFeasibleCities p width height).toNat
            (SparseRailGen.cityRadius p) width height
            (SparseRailGen.initialRng p.seed np_random ambient_seed)).1.length →
      ∃ out, SparseRailGen.generate p fuel width height num_agents num_resets
          np_random ambient_seed = .ok out ∧
        out.city_positions = (SparseRailGen.generate_random_city_positions
            (SparseRailGen.maxFeasibleCities p width height).toNat
            (SparseRailGen.cityRadius p) width height
            (SparseRailGen.initialRng p.seed np_random ambient_seed)).1 ∧
        ((SparseRailGen.generate_random_city_positions
            (SparseRailGen.maxFeasibleCities p width height).toNat
            (SparseRailGen.cityRadius p) width height
            (SparseRailGen.initialRng p.seed np_random ambient_seed)).1.length <
            (SparseRailGen.maxFeasibleCities p width height).toNat →
          "Could not set all required cities" ∈ out.warnings)) ∧
    ((SparseRailGen.generate_random_city_positions
        (SparseRailGen.maxFeasibleCities p width height).toNat
        (SparseRailGen.cityRadius p) width height
        (SparseRailGen.initialRng p.seed np_random ambient_seed)).1.length = 2 →
      SparseRailGen.generate p fuel width height num_agents num_resets
        np_random ambient_seed = .error .indexError) ∧
    ((SparseRailGen.generate_random_city_positions
        (SparseRailGen.maxFeasibleCities p width height).toNat
        (SparseRailGen.cityRadius p) width height
        (SparseRailGen.initialRng p.seed np_random ambient_seed)).1.length < 2 →
      ((SparseRailGen.generate_evenly_distr_city_positions
          (SparseRailGen.maxFeasibleCities p width height).toNat
          (SparseRailGen.cityRadius p) width height).length = 2 →
        SparseRailGen.generate p fuel width height num_agents num_resets
          np_random ambient_seed = .error .indexError) ∧
      (3 ≤ (SparseRailGen.generate_evenly_distr_city_positions
          (SparseRailGen.maxFeasibleCities p width height).toNat
          (SparseRailGen.cityRadius p) width height).length →
        ∃ out, SparseRailGen.generate p fuel width height num_agents num_resets
            np_random ambient_seed = .ok out ∧
          out.city_positions = SparseRailGen.generate_evenly_distr_city_positions
            (SparseRailGen.maxFeasibleCities p width height).toNat
            (SparseRailGen.cityRadius p) width height ∧
          "Changing to Grid mode to place at least 2 cities" ∈ out.warnings)) := by
  have hkey := generate_random_mode_eq p fuel width height num_agents num_resets
    np_random ambient_seed hgm hmax hfeas
  refine ⟨?_, ?_, ?_⟩
  · intro h3
    rw [hkey, if_neg (by omega)]
    rw [assembleChecked_ge3 p width height _ _ _ h3]
    refine ⟨_, rfl, rfl, ?_⟩
    intro hshort
    show "Could not set all required cities" ∈
      (SparseRailGen.generate_random_city_positions
          (SparseRailGen.maxFeasibleCities p width height).toNat
          (SparseRailGen.cityRadius p) width height
          (SparseRailGen.initialRng p.seed np_random ambient_seed)).2.2 ++ _
    show "Could not set all required cities" ∈
      (if (SparseRailGen.randomCityPositionsAux (SparseRailGen.cityRadius p) height width
            (SparseRailGen.maxFeasibleCities p width height).toNat []
            (SparseRailGen.initialRng p.seed np_random ambient_seed)).1.length <
          (SparseRailGen.maxFeasibleCities p width height).toNat then
        ["Could not set all required cities"] else []) ++ _
    have hshort2 : (SparseRailGen.randomCityPositionsAux (SparseRailGen.cityRadius p)
        height width (SparseRailGen.maxFeasibleCities p width height).toNat []
        (SparseRailGen.initialRng p.seed np_random ambient_seed)).1.length <
        (SparseRailGen.maxFeasibleCities p width height).toNat := hshort
    rw [if_pos hshort2]
    simp
  · intro h2
    rw [hkey, if_neg (by omega)]
    exact assembleChecked_two_random p width height _ _ _ hgm h2
  · intro hlt
    refine ⟨?_, ?_⟩
    · intro he2
      rw [hkey, if_pos hlt]
      exact assembleChecked_two_random p width height _ _ _ hgm he2
    · intro he3
      rw [hkey, if_pos hlt]
      rw [assembleChecked_ge3 p width height _ _ _ he3]
      refine ⟨_, rfl, rfl, ?_⟩
      show "Changing to Grid mode to place at least 2 cities" ∈
        ((SparseRailGen.generate_random_city_positions
            (SparseRailGen.maxFeasibleCities p width height).toNat
            (SparseRailGen.cityRadius p) width height
            (SparseRailGen.initialRng p.seed np_random ambient_seed)).2.2 ++
          ["Changing to Grid mode to place at least 2 cities"]) ++ _
      simp

set_option maxRecDepth 1000000 in
/-- Counterexample for C9: on an 18 by 18 grid with one rail pair and 2
requested cities, the random state that always draws 55 places exactly one
city, (9,9), and the shortfall warning fires — but generation does not
proceed with the reduced count: the placed prefix is replaced by the evenly
spaced positions [(5,5), (13,5)] (lines 164-167), and on that two-city list
`_connect_cities` raises an uncaught IndexError at line 500
(`closest_neighb_idx[2]` on a 2-entry argsort), so `generate` raises instead
of returning any city list at all. -/
theorem c9_counterexample :
    (SparseRailGen.generate_random_city_positions 2 3 18 18
      { stream := fun _ => 55, pos := 0 }).1 = [((9 : Int), (9 : Int))] ∧
    (SparseRailGen.generate_random_city_positions 2 3 18 18
      { stream := fun _ => 55, pos := 0 }).2.2 =
        ["Could not set all required cities"] ∧
    SparseRailGen.generate_evenly_distr_city_positions 2 3 18 18 =
      [((5 : Int), (5 : Int)), (13, 5)] ∧
    SparseRailGen.generate
        { max_num_cities := 2, grid_mode := false, max_rails_between_cities := 2,
          max_rail_pairs_in_city := 1, seed := none } 5 18 18 1 0
        (some { stream := fun _ => 55, pos := 0 }) 0 = .error .indexError := by
  refine ⟨by decide, by decide, by decide, by rfl⟩

set_option maxRecDepth 1000000 in
/-- Witness for the amended C9: on a 22 by 18 grid requesting 4 cities, the
periodic stream 0,25,0,... places only [(4,4), (9,13), (13,4)]; generation
keeps exactly this prefix and surfaces the shortfall warning. -/
theorem c9_random_shortfall_witness :
    ∃ out, SparseRailGen.generate
        { max_num_cities := 4, grid_mode := false, max_rails_between_cities := 2,
          max_rail_pairs_in_city := 1, seed := none } 5 22 18 1 0
        (some { stream := fun i => if i % 3 == 1 then 25 else 0, pos := 0 }) 0 =
          .ok out ∧
      out.city_positions = [((4 : Int), (4 : Int)), (9, 13), (13, 4)] ∧
      "Could not set all required cities" ∈ out.warnings := by
  obtain ⟨out, hgen, hpos, hwarn⟩ := (c9_random_shortfall
    { max_num_cities := 4, grid_mode := false, max_rails_between_cities := 2,
      max_rail_pairs_in_city := 1, seed := none } 5 22 18 1 0
    (some { stream := fun i => if i % 3 == 1 then 25 else 0, pos := 0 }) 0
    rfl (by decide) (by decide)).1 (by decide)
  refine ⟨out, hgen, ?_, ?_⟩
  · rw [hpos]
    decide
  · exact hwarn (by decide)

/-- Each routing call appends exactly its request to the call log. -/
theorem drawCall_reqs {G : Type} (router : SparseRailGen.Router G)
    (d : SparseRailGen.DataState G) (src tgt : Rail.Pt) :
    SparseRailGen.reqs (SparseRailGen.drawCall router d src tgt) =
      SparseRailGen.reqs d ++ [(src, tgt)] := by
  unfold SparseRailGen.drawCall SparseRailGen.reqs
  simp

/-- Each routing call appends one warning exactly when the produced line is
a local routing failure. -/
theorem drawCall_warnInv {G : Type} (router : SparseRailGen.Router G)
    (d : SparseRailGen.DataState G) (src tgt : Rail.Pt)
    (h : d.warnings.length =
      (d.calls.filter SparseRailGen.CallRec.failed).length) :
    (SparseRailGen.drawCall router d src tgt).warnings.length =
      ((SparseRailGen.drawCall router d src tgt).calls.filter
        SparseRailGen.CallRec.failed).length := by
  unfold SparseRailGen.drawCall
  by_cases h0 : (router d.grid src tgt).1.length = 0
  · simp [h0, SparseRailGen.CallRec.failed, List.filter_append, h]
  · by_cases hAB : (router d.grid src tgt).1.getLast? = some tgt ∧
        (router d.grid src tgt).1.head? = some src
    · simp [h0, hAB, hAB.1, hAB.2, SparseRailGen.CallRec.failed, List.filter_append, h]
    · rw [Classical.not_and_iff_or_not_not] at hAB
      rcases hAB with hA | hB
      · simp [h0, hA, SparseRailGen.CallRec.failed, List.filter_append, h]
      · simp [h0, hB, SparseRailGen.CallRec.failed, List.filter_append, h]

/-- The odd branch requests exactly its two connections, in the order fixed
by the non-crossing test, independently of what the router returns. -/
theorem oddStepData_reqs {G : Type} (router : SparseRailGen.Router G) (p : Rail.Pt)
    (c : SparseRailGen.CtrlState) (d : SparseRailGen.DataState G) :
    SparseRailGen.reqs (SparseRailGen.oddStepData router p c d) =
      SparseRailGen.reqs d ++
        (if SparseRailGen.crossingCond c then
          [(p, c.next_neighbour_connection_point),
           (c.last_city_out_connection_point, c.neighbour_connection_point)]
        else
          [(c.last_city_out_connection_point, c.neighbour_connection_point),
           (p, c.next_neighbour_connection_point)]) := by
  unfold SparseRailGen.oddStepData
  by_cases hc : SparseRailGen.crossingCond c <;> simp [hc, drawCall_reqs]

/-- The odd branch preserves the one-warning-per-failure invariant. -/
theorem oddStepData_warnInv {G : Type} (router : SparseRailGen.Router G) (p : Rail.Pt)
    (c : SparseRailGen.CtrlState) (d : SparseRailGen.DataState G)
    (h : d.warnings.length =
      (d.calls.filter SparseRailGen.CallRec.failed).length) :
    (SparseRailGen.oddStepData router p c d).warnings.length =
      ((SparseRailGen.oddStepData router p c d).calls.filter
        SparseRailGen.CallRec.failed).length := by
  unfold SparseRailGen.oddStepData
  by_cases hc : SparseRailGen.crossingCond c <;>
    simp only [hc, if_true, if_false, Bool.false_eq_true] <;>
    exact drawCall_warnInv _ _ _ _ (drawCall_warnInv _ _ _ _ h)

/-- The requests of one per-point iteration are determined by the control
state alone. -/
theorem pointStepData_reqs {G1 G2 : Type} (r1 : SparseRailGen.Router G1)
    (r2 : SparseRailGen.Router G2) (p : Rail.Pt) (c : SparseRailGen.CtrlState)
    (d1 : SparseRailGen.DataState G1) (d2 : SparseRailGen.DataState G2)
    (h : SparseRailGen.reqs d1 = SparseRailGen.reqs d2) :
    SparseRailGen.reqs (SparseRailGen.pointStepData r1 p c d1) =
      SparseRailGen.reqs (SparseRailGen.pointStepData r2 p c d2) := by
  unfold SparseRailGen.pointStepData
  by_cases hi : c.i % 2 = 0
  · simp [hi, h]
  · simp [hi, oddStepData_reqs, h]

/-- One per-point iteration preserves the one-warning-per-failure invariant. -/
theorem pointStepData_warnInv {G : Type} (router : SparseRailGen.Router G) (p : Rail.Pt)
    (c : SparseRailGen.CtrlState) (d : SparseRailGen.DataState G)
    (h : d.warnings.length =
      (d.calls.filter SparseRailGen.CallRec.failed).length) :
    (SparseRailGen.pointStepData router p c d).warnings.length =
      ((SparseRailGen.pointStepData router p c d).calls.filter
        SparseRailGen.CallRec.failed).length := by
  unfold SparseRailGen.pointStepData
  by_cases hi : c.i % 2 = 0
  · simpa [hi] using h
  · simpa [hi] using oddStepData_warnInv router p c d h

/-- Along one side pass, the control state and the request sequence are
independent of the router. -/
theorem connectPass_two {G1 G2 : Type} (r1 : SparseRailGen.Router G1)
    (r2 : SparseRailGen.Router G2) (positions : List Rail.Pt) (idx nbr : Nat)
    (city : Rail.Pt) :
    ∀ (pts : List Rail.Pt) (c : SparseRailGen.CtrlState)
      (d1 : SparseRailGen.DataState G1) (d2 : SparseRailGen.DataState G2),
      SparseRailGen.reqs d1 = SparseRailGen.reqs d2 →
      (SparseRailGen.connectPass r1 positions idx nbr city pts (c, d1)).1 =
        (SparseRailGen.connectPass r2 positions idx nbr city pts (c, d2)).1 ∧
      SparseRailGen.reqs (SparseRailGen.connectPass r1 positions idx nbr city pts (c, d1)).2 =
        SparseRailGen.reqs (SparseRailGen.connectPass r2 positions idx nbr city pts (c, d2)).2 := by
  intro pts
  induction pts with
  | nil => intro c d1 d2 h; exact ⟨rfl, h⟩
  | cons p t ih =>
    intro c d1 d2 h
    exact ih (SparseRailGen.pointStepCtrl positions idx nbr city p c)
      (SparseRailGen.pointStepData r1 p c d1) (SparseRailGen.pointStepData r2 p c d2)
      (pointStepData_reqs r1 r2 p c d1 d2 h)

/-- One side pass preserves the one-warning-per-failure invariant. -/
theorem connectPass_warnInv {G : Type} (router : SparseRailGen.Router G)
    (positions : List Rail.Pt) (idx nbr : Nat) (city : Rail.Pt) :
    ∀ (pts : List Rail.Pt) (c : SparseRailGen.CtrlState) (d : SparseRailGen.DataState G),
      d.warnings.length = (d.calls.filter SparseRailGen.CallRec.failed).length →
      (SparseRailGen.connectPass router positions idx nbr city pts (c, d)).2.warnings.length =
        ((SparseRailGen.connectPass router positions idx nbr city pts (c, d)).2.calls.filter
          SparseRailGen.CallRec.failed).length := by
  intro pts
  induction pts with
  | nil => intro c d h; exact h
  | cons p t ih =>
    intro c d h
    exact ih (SparseRailGen.pointStepCtrl positions idx nbr city p c)
      (SparseRailGen.pointStepData router p c d)
      (pointStepData_warnInv router p c d h)

/-- Along one city iteration, the control state and the request sequence are
independent of the router. -/
theorem cityStep_two {G1 G2 : Type} (r1 : SparseRailGen.Router G1)
    (r2 : SparseRailGen.Router G2) (positions : List Rail.Pt)
    (cp : List (List (List Rail.Pt))) (idx : Nat) (c : SparseRailGen.CtrlState)
    (d1 : SparseRailGen.DataState G1) (d2 : SparseRailGen.DataState G2)
    (h : SparseRailGen.reqs d1 = SparseRailGen.reqs d2) :
    (SparseRailGen.cityStep r1 positions cp (c, d1) idx).1 =
      (SparseRailGen.cityStep r2 positions cp (c, d2) idx).1 ∧
    SparseRailGen.reqs (SparseRailGen.cityStep r1 positions cp (c, d1) idx).2 =
      SparseRailGen.reqs (SparseRailGen.cityStep r2 positions cp (c, d2) idx).2 := by
  obtain ⟨h1, h2⟩ := connectPass_two r1 r2 positions idx
    (SparseRailGen.cityNeighbours positions idx).1
    (positions.getD idx ((0 : Int), (0 : Int)))
    ((cp.getD idx []).getD (SparseRailGen.cityOutDirections positions cp idx).1 [])
    { c with i := 0, connection_points_copy := cp } d1 d2 h
  unfold SparseRailGen.cityStep
  dsimp only
  by_cases hd : (SparseRailGen.cityOutDirections positions cp idx).1 ≠
      (SparseRailGen.cityOutDirections positions cp idx).2
  · rw [if_pos hd, if_pos hd]
    generalize SparseRailGen.connectPass r1 positions idx
        (SparseRailGen.cityNeighbours positions idx).1
        (positions.getD idx ((0 : Int), (0 : Int)))
        ((cp.getD idx []).getD (SparseRailGen.cityOutDirections positions cp idx).1 [])
        ({ c with i := 0, connection_points_copy := cp }, d1) = stA at h1 h2 ⊢
    generalize SparseRailGen.connectPass r2 positions idx
        (SparseRailGen.cityNeighbours positions idx).1
        (positions.getD idx ((0 : Int), (0 : Int)))
        ((cp.getD idx []).getD (SparseRailGen.cityOutDirections positions cp idx).1 [])
        ({ c with i := 0, connection_points_copy := cp }, d2) = stB at h1 h2 ⊢
    rw [← h1]
    exact connectPass_two r1 r2 positions idx
      (SparseRailGen.cityNeighbours positions idx).2
      (positions.getD idx ((0 : Int), (0 : Int)))
      ((cp.getD idx []).getD (SparseRailGen.cityOutDirections positions cp idx).2 [])
      { stA.1 with connection_points_copy := cp } stA.2 stB.2 h2
  · rw [if_neg hd, if_neg hd]
    exact ⟨h1, h2⟩

/-- One city iteration preserves the one-warning-per-failure invariant. -/
theorem cityStep_warnInv {G : Type} (router : SparseRailGen.Router G)
    (positions : List Rail.Pt) (cp : List (List (List Rail.Pt))) (idx : Nat)
    (c : SparseRailGen.CtrlState) (d : SparseRailGen.DataState G)
    (h : d.warnings.length = (d.calls.filter SparseRailGen.CallRec.failed).length) :
    (SparseRailGen.cityStep router positions cp (c, d) idx).2.warnings.length =
      ((SparseRailGen.cityStep router positions cp (c, d) idx).2.calls.filter
        SparseRailGen.CallRec.failed).length := by
  have hp1 := connectPass_warnInv router positions idx
    (SparseRailGen.cityNeighbours positions idx).1
    (positions.getD idx ((0 : Int), (0 : Int)))
    ((cp.getD idx []).getD (SparseRailGen.cityOutDirections positions cp idx).1 [])
    { c with i := 0, connection_points_copy := cp } d h
  unfold SparseRailGen.cityStep
  dsimp only
  by_cases hd : (SparseRailGen.cityOutDirections positions cp idx).1 ≠
      (SparseRailGen.cityOutDirections positions cp idx).2
  · rw [if_pos hd]
    generalize SparseRailGen.connectPass router positions idx
        (SparseRailGen.cityNeighbours positions idx).1
        (positions.getD idx ((0 : Int), (0 : Int)))
        ((cp.getD idx []).getD (SparseRailGen.cityOutDirections positions cp idx).1 [])
        ({ c with i := 0, connection_points_copy := cp }, d) = stA at hp1 ⊢
    exact connectPass_warnInv router positions idx
      (SparseRailGen.cityNeighbours positions idx).2
      (positions.getD idx ((0 : Int), (0 : Int)))
      ((cp.getD idx []).getD (SparseRailGen.cityOutDirections positions cp idx).2 [])
      { stA.1 with connection_points_copy := cp } stA.2 hp1
  · rw [if_neg hd]
    exact hp1

/-- Along the whole city loop, the control state and the request sequence
are independent of the router. -/
theorem connectFold_two {G1 G2 : Type} (r1 : SparseRailGen.Router G1)
    (r2 : SparseRailGen.Router G2) (positions : List Rail.Pt)
    (cp : List (List (List Rail.Pt))) :
    ∀ (idxs : List Nat) (c : SparseRailGen.CtrlState)
      (d1 : SparseRailGen.DataState G1) (d2 : SparseRailGen.DataState G2),
      SparseRailGen.reqs d1 = SparseRailGen.reqs d2 →
      (idxs.foldl (SparseRailGen.cityStep r1 positions cp) (c, d1)).1 =
        (idxs.foldl (SparseRailGen.cityStep r2 positions cp) (c, d2)).1 ∧
      SparseRailGen.reqs (idxs.foldl (SparseRailGen.cityStep r1 positions cp) (c, d1)).2 =
        SparseRailGen.reqs (idxs.foldl (SparseRailGen.cityStep r2 positions cp) (c, d2)).2 := by
  intro idxs
  induction idxs with
  | nil => intro c d1 d2 h; exact ⟨rfl, h⟩
  | cons i t ih =>
    intro c d1 d2 h
    obtain ⟨h1, h2⟩ := cityStep_two r1 r2 positions cp i c d1 d2 h
    have hstep : SparseRailGen.cityStep r2 positions cp (c, d2) i =
        ((SparseRailGen.cityStep r1 positions cp (c, d1) i).1,
         (SparseRailGen.cityStep r2 positions cp (c, d2) i).2) := by
      rw [h1]
    show (t.foldl (SparseRailGen.cityStep r1 positions cp)
        (SparseRailGen.cityStep r1 positions cp (c, d1) i)).1 =
        (t.foldl (SparseRailGen.cityStep r2 positions cp)
          (SparseRailGen.cityStep r2 positions cp (c, d2) i)).1 ∧
      SparseRailGen.reqs (t.foldl (SparseRailGen.cityStep r1 positions cp)
        (SparseRailGen.cityStep r1 positions cp (c, d1) i)).2 =
        SparseRailGen.reqs (t.foldl (SparseRailGen.cityStep r2 positions cp)
          (SparseRailGen.cityStep r2 positions cp (c, d2) i)).2
    rw [hstep]
    exact ih (SparseRailGen.cityStep r1 positions cp (c, d1) i).1
      (SparseRailGen.cityStep r1 positions cp (c, d1) i).2
      (SparseRailGen.cityStep r2 positions cp (c, d2) i).2 h2

/-- The whole city loop preserves the one-warning-per-failure invariant. -/
theorem connectFold_warnInv {G : Type} (router : SparseRailGen.Router G)
    (positions : List Rail.Pt) (cp : List (List (List Rail.Pt))) :
    ∀ (idxs : List Nat) (c : SparseRailGen.CtrlState) (d : SparseRailGen.DataState G),
      d.warnings.length = (d.calls.filter SparseRailGen.CallRec.failed).length →
      (idxs.foldl (SparseRailGen.cityStep router positions cp) (c, d)).2.warnings.length =
        ((idxs.foldl (SparseRailGen.cityStep router positions cp)
          (c, d)).2.calls.filter SparseRailGen.CallRec.failed).length := by
  intro idxs
  induction idxs with
  | nil => intro c d h; exact h
  | cons i t ih =>
    intro c d h
    show (t.foldl (SparseRailGen.cityStep router positions cp)
        (SparseRailGen.cityStep router positions cp (c, d) i)).2.warnings.length = _
    exact ih (SparseRailGen.cityStep router positions cp (c, d) i).1
      (SparseRailGen.cityStep router positions cp (c, d) i).2
      (cityStep_warnInv router positions cp i c d h)

/-- C8: a local routing failure (empty path, or first or last cell differing
from the requested endpoints) never changes the behaviour of
`_connect_cities` beyond an extra warning: the sequence of routing requests
and the final control state are identical for any two routers over any two
grids (so every remaining connection is still attempted and nothing raises
or aborts), and the number of warnings emitted equals exactly the number of
failing routing calls. -/
theorem c8_connect_cities_warn_and_continue {G1 G2 : Type}
    (r1 : SparseRailGen.Router G1) (r2 : SparseRailGen.Router G2) (g1 : G1) (g2 : G2)
    (positions : List Rail.Pt) (connection_points : List (List (List Rail.Pt))) :
    SparseRailGen.reqs (SparseRailGen.connect_cities r1 positions connection_points g1).2 =
      SparseRailGen.reqs (SparseRailGen.connect_cities r2 positions connection_points g2).2 ∧
    (SparseRailGen.connect_cities r1 positions connection_points g1).1 =
      (SparseRailGen.connect_cities r2 positions connection_points g2).1 ∧
    (SparseRailGen.connect_cities r1 positions connection_points g1).2.warnings.length =
      ((SparseRailGen.connect_cities r1 positions connection_points
        g1).2.calls.filter SparseRailGen.CallRec.failed).length := by
  obtain ⟨h1, h2⟩ := connectFold_two r1 r2 positions connection_points
    (List.range positions.length) SparseRailGen.initCtrl ⟨g1, [], [], []⟩ ⟨g2, [], [], []⟩ rfl
  exact ⟨h2, h1, connectFold_warnInv r1 positions connection_points
    (List.range positions.length) SparseRailGen.initCtrl ⟨g1, [], [], []⟩ rfl⟩
